import Mathlib

/-!
Verification development for TheAmiiboDoctor, a validator and repairer of
NTAG215 amiibo tag images stored as Flipper NFC text dumps or raw binary dumps.

The Python source is shallowly embedded as executable Lean definitions:
  * bytes are modelled as natural numbers (with explicit < 256 bounds where the
    Python bytes type guarantees them);
  * hex strings are lists of characters, and the regular-expression searches of
    the source are embedded as explicit leftmost-match scanners for the three
    concrete patterns the source uses;
  * operations that can raise a Python exception (bytes.fromhex on malformed
    data, IndexError on short pages, tuple-unpacking of a wrong-length UID)
    return Option, with none marking the raised exception;
  * the random SN3 resampling of the source is modelled by passing the sampled
    replacement byte as an explicit parameter; the sampling loop of the source
    guarantees the value is in [0, 255] and different from 0x88, which theorems
    take as hypotheses on that parameter;
  * file-system effects (backup creation, the final write) are modelled by
    flags and by returning the new file content instead of writing it.
-/

/-! ## Character and hex primitives -/

/-- Python regex whitespace class over ASCII, as matched by the patterns in the
source: space, tab, newline, carriage return, vertical tab, form feed. -/
def isPySpace (c : Char) : Bool :=
  c = ' ' || c = '\t' || c = '\n' || c = '\r' || c = '\x0b' || c = '\x0c'

/-- Value of one hex digit, as accepted by Python bytes.fromhex (both cases). -/
def hexVal (c : Char) : Option Nat :=
  if '0' ≤ c ∧ c ≤ '9' then some (c.toNat - 48)
  else if 'a' ≤ c ∧ c ≤ 'f' then some (c.toNat - 87)
  else if 'A' ≤ c ∧ c ≤ 'F' then some (c.toNat - 55)
  else none

/-- Character class of the regex groups in the source: hex digit or whitespace. -/
def isHexOrSpaceChar (c : Char) : Bool :=
  (hexVal c).isSome || isPySpace c

/-- Decimal value of a digit run, as Python int() on a regex digit group. -/
def natOfDigits (ds : List Char) : Nat :=
  ds.foldl (fun a c => a * 10 + (c.toNat - 48)) 0

/-- Embedding of Python bytes.fromhex: whitespace may separate byte pairs, the
two digits of one byte must be adjacent, a dangling digit or a foreign
character raises ValueError (modelled as none). -/
def fromhex : List Char → Option (List Nat)
  | [] => some []
  | c :: cs =>
    if isPySpace c then fromhex cs
    else
      match hexVal c with
      | none => none
      | some hi =>
        match cs with
        | [] => none
        | c2 :: cs2 =>
          match hexVal c2 with
          | none => none
          | some lo =>
            match fromhex cs2 with
            | none => none
            | some r => some ((hi * 16 + lo) :: r)

/-- Uppercase hex digit table (f-string 02X formatting in the source). -/
def hexDig (n : Nat) : Char :=
  (['0', '1', '2', '3', '4', '5', '6', '7', '8', '9',
    'A', 'B', 'C', 'D', 'E', 'F']).getD n '0'

/-- Two uppercase hex characters of one byte. -/
def hexPairChars (b : Nat) : List Char :=
  [hexDig (b / 16), hexDig (b % 16)]

/-- One byte rendered as an f-string 02X field. -/
def hex2 (b : Nat) : String :=
  String.mk (hexPairChars b)

/-- A byte string rendered as adjacent uppercase hex pairs: the source's
bytes.hex().upper() and also its join of 02X fields without separator. -/
def bytesToHexChars (bs : List Nat) : List Char :=
  bs.flatMap hexPairChars

/-- A byte string rendered as space-separated uppercase hex pairs: the source's
join of 02X fields with a space separator. -/
def spacedHex (bs : List Nat) : String :=
  String.intercalate " " (bs.map hex2)

theorem hexVal_hexDig (n : Nat) (h : n < 16) : hexVal (hexDig n) = some n := by
  interval_cases n <;> decide

theorem isPySpace_hexDig (n : Nat) (h : n < 16) : isPySpace (hexDig n) = false := by
  interval_cases n <;> decide

/-- Decoding inverts encoding on genuine byte strings. -/
theorem fromhex_bytesToHexChars (bs : List Nat) (h : ∀ b ∈ bs, b < 256) :
    fromhex (bytesToHexChars bs) = some bs := by
  induction bs with
  | nil => rfl
  | cons b tl ih =>
    have hb : b < 256 := h b (List.mem_cons_self b tl)
    have h16 : b / 16 < 16 := by omega
    have hm : b % 16 < 16 := by omega
    have htl : fromhex (bytesToHexChars tl) = some tl :=
      ih (fun x hx => h x (List.mem_cons_of_mem b hx))
    show fromhex (hexDig (b / 16) :: hexDig (b % 16) :: bytesToHexChars tl) = some (b :: tl)
    simp only [fromhex, isPySpace_hexDig _ h16, hexVal_hexDig _ h16, hexVal_hexDig _ hm, htl,
      Bool.false_eq_true, if_false]
    congr 2
    omega

/-! ## Field derivation and the SN3 fix -/

/-- Embedding of calculate_password_from_uid: Python returns None below 7
bytes, otherwise the four XOR-derived password bytes. -/
def calculate_password_from_uid (uid : List Nat) : Option (List Nat) :=
  if uid.length < 7 then none
  else
    some [uid.getD 1 0 ^^^ uid.getD 3 0 ^^^ 0xAA,
          uid.getD 2 0 ^^^ uid.getD 4 0 ^^^ 0x55,
          uid.getD 3 0 ^^^ uid.getD 5 0 ^^^ 0xAA,
          uid.getD 4 0 ^^^ uid.getD 6 0 ^^^ 0x55]

/-- Embedding of fix_uid_if_sn3_is_88. The parameter rnd is the byte the
source samples with random.randint inside a loop that rejects 0x88; theorems
carry the loop's guarantee (rnd < 256 and rnd different from 0x88) as
hypotheses on rnd. -/
def fix_uid_if_sn3_is_88 (rnd : Nat) (uid : List Nat) : List Nat × Bool :=
  if 4 ≤ uid.length ∧ uid.getD 3 0 = 0x88 then (uid.set 3 rnd, true)
  else (uid, false)

/-- C9: for every byte sequence of length at least 7 the password derivation
returns exactly the 4 bytes [SN1^SN3^0xAA, SN2^SN4^0x55, SN3^SN5^0xAA,
SN4^SN6^0x55], deterministically; for every shorter sequence it returns no
password instead of aborting. -/
theorem C9_password_derivation :
    (∀ uid : List Nat, 7 ≤ uid.length →
      calculate_password_from_uid uid =
        some [uid.getD 1 0 ^^^ uid.getD 3 0 ^^^ 0xAA,
              uid.getD 2 0 ^^^ uid.getD 4 0 ^^^ 0x55,
              uid.getD 3 0 ^^^ uid.getD 5 0 ^^^ 0xAA,
              uid.getD 4 0 ^^^ uid.getD 6 0 ^^^ 0x55]) ∧
    (∀ uid : List Nat, uid.length < 7 → calculate_password_from_uid uid = none) := by
  constructor
  · intro uid h
    rw [calculate_password_from_uid, if_neg (by omega)]
  · intro uid h
    rw [calculate_password_from_uid, if_pos h]

/-- Witness for C9 on the UID 04 AB 73 54 B8 B6 0F and on a short sequence. -/
theorem C9_password_derivation_witness :
    calculate_password_from_uid [0x04, 0xAB, 0x73, 0x54, 0xB8, 0xB6, 0x0F] =
      some [0x55, 0x9E, 0x48, 0xE2] ∧
    calculate_password_from_uid [1, 2, 3] = none := by
  refine ⟨(C9_password_derivation.1 _ (by decide)).trans (by decide),
          C9_password_derivation.2 _ (by decide)⟩

/-- C5: repairing a 7-byte UID whose SN3 is 0x88 flips the changed flag,
replaces SN3 by the sampled byte (in [0,255] and never 0x88 by the sampling
loop), and re-running the repair on the result schedules no further change. -/
theorem C5_sn3_repair (uid : List Nat) (rnd : Nat)
    (hlen : uid.length = 7) (hsn3 : uid.getD 3 0 = 0x88)
    (hr : rnd < 256) (hne : rnd ≠ 0x88) :
    (fix_uid_if_sn3_is_88 rnd uid).2 = true ∧
    (fix_uid_if_sn3_is_88 rnd uid).1.getD 3 0 = rnd ∧
    (fix_uid_if_sn3_is_88 rnd uid).1.getD 3 0 ≠ 0x88 ∧
    (fix_uid_if_sn3_is_88 rnd uid).1.length = 7 ∧
    ∀ rnd2 : Nat,
      fix_uid_if_sn3_is_88 rnd2 (fix_uid_if_sn3_is_88 rnd uid).1 =
        ((fix_uid_if_sn3_is_88 rnd uid).1, false) := by
  have hcond : 4 ≤ uid.length ∧ uid.getD 3 0 = 0x88 := ⟨by omega, hsn3⟩
  have hset : (uid.set 3 rnd).getD 3 0 = rnd := by
    have h3 : 3 < uid.length := by omega
    simp [List.getD, List.getElem?_set_self h3]
  have hfix : fix_uid_if_sn3_is_88 rnd uid = (uid.set 3 rnd, true) := by
    rw [fix_uid_if_sn3_is_88, if_pos hcond]
  refine ⟨?_, ?_, ?_, ?_, ?_⟩
  · rw [hfix]
  · rw [hfix]; exact hset
  · rw [hfix]; show (uid.set 3 rnd).getD 3 0 ≠ 0x88; rw [hset]; exact hne
  · rw [hfix]; simp [hlen]
  · intro rnd2
    rw [hfix]
    show fix_uid_if_sn3_is_88 rnd2 (uid.set 3 rnd) = (uid.set 3 rnd, false)
    rw [fix_uid_if_sn3_is_88, if_neg]
    rintro ⟨-, habs⟩
    rw [hset] at habs
    exact hne habs

/-- Witness for C5 at UID 01 02 03 88 05 06 07 with sampled byte 0x42 and a
second run with sampled byte 0. -/
theorem C5_sn3_repair_witness :
    (fix_uid_if_sn3_is_88 0x42 [1, 2, 3, 0x88, 5, 6, 7]).2 = true ∧
    (fix_uid_if_sn3_is_88 0x42 [1, 2, 3, 0x88, 5, 6, 7]).1.getD 3 0 = 0x42 ∧
    (fix_uid_if_sn3_is_88 0x42 [1, 2, 3, 0x88, 5, 6, 7]).1.getD 3 0 ≠ 0x88 ∧
    (fix_uid_if_sn3_is_88 0x42 [1, 2, 3, 0x88, 5, 6, 7]).1.length = 7 ∧
    fix_uid_if_sn3_is_88 0 (fix_uid_if_sn3_is_88 0x42 [1, 2, 3, 0x88, 5, 6, 7]).1 =
      ((fix_uid_if_sn3_is_88 0x42 [1, 2, 3, 0x88, 5, 6, 7]).1, false) := by
  have h := C5_sn3_repair [1, 2, 3, 0x88, 5, 6, 7] 0x42
    (by decide) (by decide) (by decide) (by decide)
  exact ⟨h.1, h.2.1, h.2.2.1, h.2.2.2.1, h.2.2.2.2 0⟩

/-! ## The pages mapping

The Python source keeps pages in a dict from page number to the hex string of
the page data. The dict is embedded as an association list with
insert-or-overwrite update, so iteration order of the source lines is
preserved exactly as the dict preserves it. -/

/-- Page table: page number to hex characters of the page data. -/
abbrev Pages : Type := List (Nat × List Char)

/-- Dict lookup. -/
def pagesGet (ps : Pages) (n : Nat) : Option (List Char) :=
  (List.find? (fun p => p.1 == n) ps).map (·.2)

/-- Dict membership. -/
def pagesHas (ps : Pages) (n : Nat) : Bool :=
  (pagesGet ps n).isSome

/-- Dict insert-or-overwrite. -/
def pagesSet (ps : Pages) (n : Nat) (v : List Char) : Pages :=
  if ps.any (fun p => p.1 == n) then
    ps.map (fun p => if p.1 == n then (n, v) else p)
  else ps ++ [(n, v)]

/-- Dict emptiness, the truthiness test of the source. -/
def pagesEmpty (ps : Pages) : Bool :=
  match ps with
  | [] => true
  | _ :: _ => false

/-! ## The three regular-expression searches

The source uses re.search with the patterns
  UID:\s*([0-9A-Fa-f\s]+)
  Page\s+(\d+):\s*([0-9A-Fa-f\s]+)
  Version:\s*(\d+)
Each scanner below implements the leftmost match of one pattern, including the
backtracking case where the greedy \s* must give back its final character so
that the following one-or-more character class can succeed. -/

/-- Match of the UID pattern anchored at the start of the character list,
returning the hex group. -/
def uidMatchAt (cs : List Char) : Option (List Char) :=
  match cs with
  | 'U' :: 'I' :: 'D' :: ':' :: rest =>
    let w := rest.takeWhile isPySpace
    let r1 := rest.drop w.length
    let c := r1.takeWhile isHexOrSpaceChar
    if c.isEmpty then
      match w.getLast? with
      | some lw => some [lw]
      | none => none
    else some c
  | _ => none

/-- Leftmost match of the UID pattern. -/
def searchUid : List Char → Option (List Char)
  | [] => none
  | c :: cs =>
    match uidMatchAt (c :: cs) with
    | some g => some g
    | none => searchUid cs

/-- Match of the Page pattern anchored at the start of the character list,
returning the page number and the hex group. -/
def pageMatchAt (cs : List Char) : Option (Nat × List Char) :=
  match cs with
  | 'P' :: 'a' :: 'g' :: 'e' :: rest =>
    let w1 := rest.takeWhile isPySpace
    if w1.isEmpty then none
    else
      let r1 := rest.drop w1.length
      let ds := r1.takeWhile Char.isDigit
      if ds.isEmpty then none
      else
        match r1.drop ds.length with
        | ':' :: r2 =>
          let w := r2.takeWhile isPySpace
          let r3 := r2.drop w.length
          let c := r3.takeWhile isHexOrSpaceChar
          if c.isEmpty then
            match w.getLast? with
            | some lw => some (natOfDigits ds, [lw])
            | none => none
          else some (natOfDigits ds, c)
        | _ => none
  | _ => none

/-- Leftmost match of the Page pattern. -/
def searchPage : List Char → Option (Nat × List Char)
  | [] => none
  | c :: cs =>
    match pageMatchAt (c :: cs) with
    | some g => some g
    | none => searchPage cs

/-- Match of the Version pattern anchored at the start of the character list,
returning the parsed number. -/
def versionMatchAt (cs : List Char) : Option Nat :=
  match cs with
  | 'V' :: 'e' :: 'r' :: 's' :: 'i' :: 'o' :: 'n' :: ':' :: rest =>
    let w := rest.takeWhile isPySpace
    let ds := (rest.drop w.length).takeWhile Char.isDigit
    if ds.isEmpty then none else some (natOfDigits ds)
  | _ => none

/-- Leftmost match of the Version pattern. -/
def searchVersion : List Char → Option Nat
  | [] => none
  | c :: cs =>
    match versionMatchAt (c :: cs) with
    | some g => some g
    | none => searchVersion cs

/-! ## The text decoder -/

/-- The source's processing of a matched UID group: remove the spaces and
uppercase the rest. -/
def processUidGroup (g : List Char) : List Char :=
  (g.filter (fun c => c ≠ ' ')).map Char.toUpper

/-- The source's processing of a matched page group: remove the spaces. -/
def processPageGroup (g : List Char) : List Char :=
  g.filter (fun c => c ≠ ' ')

/-- Embedding of extract_pages_from_nfc on the split lines of the file:
returns the page dict, the last UID field seen, and the last version seen.
The file read and its exception handler are outside the model; the function
itself raises nothing. -/
def extract_pages_from_nfc (lines : List String) : Pages × Option (List Char) × Option Nat :=
  lines.foldl
    (fun acc line =>
      let cs := line.toList
      let acc1 : Pages × Option (List Char) × Option Nat :=
        match searchUid cs with
        | some g => (acc.1, some (processUidGroup g), acc.2.2)
        | none => acc
      let acc2 : Pages × Option (List Char) × Option Nat :=
        match searchVersion cs with
        | some v => (acc1.1, acc1.2.1, some v)
        | none => acc1
      match searchPage cs with
      | some (n, g) => (pagesSet acc2.1 n (processPageGroup g), acc2.2.1, acc2.2.2)
      | none => acc2)
    ([], none, none)

/-! ## The validator -/

/-- The nine tracked booleans of the diagnosis; the source carries them as the
problem_details dict and reuses the same key set for the issue_types dict of
the repairers. -/
structure Details where
  uid_field : Bool
  sn3 : Bool
  bcc0 : Bool
  bcc1 : Bool
  password : Bool
  pack : Bool
  dlb : Bool
  cfg0 : Bool
  cfg1 : Bool
deriving DecidableEq, Repr

/-- The all-false diagnosis of the short-circuit returns. -/
def allFalseDetails : Details :=
  ⟨false, false, false, false, false, false, false, false, false⟩

/-- Result tuple of check_uid_comprehensive. -/
structure CheckResult where
  allValid : Bool
  status : String
  uidHex : String
  details : Details
deriving DecidableEq, Repr

/-- Expected DLB constant of the source. -/
def expected_dlb : List Nat := [0x01, 0x00, 0x0F, 0xBF]

/-- Expected CFG0 constant of the source. -/
def expected_cfg0 : List Nat := [0x00, 0x00, 0x00, 0x04]

/-- Expected CFG1 constant of the source. -/
def expected_cfg1 : List Nat := [0x5F, 0x00, 0x00, 0x00]

/-- Expected PACK constant of the source. -/
def expected_pack : List Nat := [0x80, 0x80, 0x00, 0x00]

/-- Embedding of validate_dlb_and_cfg. Returns none where the source would
raise from bytes.fromhex; otherwise returns the source's result tuple
(all_valid, status, dlb_valid, cfg0_valid, cfg1_valid). -/
def validate_dlb_and_cfg (pages : Pages) :
    Option (Bool × String × Bool × Bool × Bool) :=
  if pagesEmpty pages || !pagesHas pages 130 || !pagesHas pages 131 || !pagesHas pages 132 then
    some (false, "Missing DLB/CFG pages", false, false, false)
  else
    match pagesGet pages 130, pagesGet pages 131, pagesGet pages 132 with
    | some h130, some h131, some h132 =>
      match fromhex h130, fromhex h131, fromhex h132 with
      | some page130, some page131, some page132 =>
        if page130.length < 4 || page131.length < 4 || page132.length < 4 then
          some (false, "Invalid DLB/CFG page lengths", false, false, false)
        else
          let actual_dlb := page130.take 4
          let actual_cfg0 := page131.take 4
          let actual_cfg1 := page132.take 4
          let dlb_valid := actual_dlb == expected_dlb
          let cfg0_valid := actual_cfg0 == expected_cfg0
          let cfg1_valid := actual_cfg1 == expected_cfg1
          let dlb_hex := spacedHex actual_dlb
          let cfg0_hex := spacedHex actual_cfg0
          let cfg1_hex := spacedHex actual_cfg1
          let s1 := if dlb_valid then "DLB=" ++ dlb_hex ++ " ✓"
                    else "DLB=" ++ dlb_hex ++ " ✗ (expected 01 00 0F BF)"
          let s2 := if cfg0_valid then "CFG0=" ++ cfg0_hex ++ " ✓"
                    else "CFG0=" ++ cfg0_hex ++ " ✗ (expected 00 00 00 04)"
          let s3 := if cfg1_valid then "CFG1=" ++ cfg1_hex ++ " ✓"
                    else "CFG1=" ++ cfg1_hex ++ " ✗ (expected 5F 00 00 00)"
          some (dlb_valid && cfg0_valid && cfg1_valid,
                String.intercalate ", " [s1, s2, s3],
                dlb_valid, cfg0_valid, cfg1_valid)
      | _, _, _ => none
    | _, _, _ => none

/-- The UID reconstructed from pages as adjacent hex pairs, the source's
constructed_uid string. -/
def constructedUidChars (uid : List Nat) : List Char :=
  bytesToHexChars uid

/-- BCC1 evaluation step of the validator: page 2 absent gives (false, 0)
without raising; a present page is hex-decoded (raising on malformed data) and
an empty page gives (false, 0). Returns (bcc1_valid, actual_bcc1). -/
def bcc1Check (pages : Pages) (expected : Nat) : Option (Bool × Nat) :=
  match pagesGet pages 2 with
  | none => some (false, 0)
  | some h2 =>
    match fromhex h2 with
    | none => none
    | some page2 =>
      if page2.length < 1 then some (false, 0)
      else some (page2.getD 0 0 == expected, page2.getD 0 0)

/-- Password and PACK evaluation step of the validator. Returns
(password_valid, pack_valid, actual_password, actual_pack, expected_password).
Pages 133/134 absent or shorter than 4 bytes force both booleans false with
four zero bytes reported as the actual values. -/
def pwPackCheck (pages : Pages) (uid : List Nat) :
    Option (Bool × Bool × List Nat × List Nat × List Nat) :=
  match pagesGet pages 133, pagesGet pages 134 with
  | some h133, some h134 =>
    match calculate_password_from_uid uid with
    | none => none
    | some expPw =>
      match fromhex h133, fromhex h134 with
      | some page133, some page134 =>
        if 4 ≤ page133.length ∧ 4 ≤ page134.length then
          some (page133.take 4 == expPw, page134.take 4 == expected_pack,
                page133.take 4, page134.take 4, expPw)
        else
          some (false, false, [0, 0, 0, 0], [0, 0, 0, 0], expPw)
      | _, _ => none
  | _, _ =>
    match calculate_password_from_uid uid with
    | none => none
    | some expPw => some (false, false, [0, 0, 0, 0], [0, 0, 0, 0], expPw)

/-- Embedding of check_uid_comprehensive. The filepath argument of the source
is only interpolated into messages and is dropped. Returns none exactly where
the source lets an exception escape (bytes.fromhex on malformed page data). -/
def check_uid_comprehensive (pages : Pages) (uid_field : Option (List Char)) :
    Option CheckResult :=
  if pagesEmpty pages || !pagesHas pages 0 || !pagesHas pages 1 then
    some ⟨false, "Missing required pages", "", allFalseDetails⟩
  else
    match pagesGet pages 0, pagesGet pages 1 with
    | some h0, some h1 =>
      match fromhex h0, fromhex h1 with
      | some page0, some page1 =>
        let uid_bytes := page0.take 3 ++ page1.take 4
        if uid_bytes.length < 7 then
          some ⟨false, "Invalid UID length", "", allFalseDetails⟩
        else
          -- Python unpacks sn0..sn6 from uid_bytes, raising unless the length
          -- is exactly 7; the length guard above plus the construction bound
          -- the length to 7, so the raise branch is unreachable.
          if uid_bytes.length ≠ 7 then none
          else
            let sn0 := uid_bytes.getD 0 0
            let sn1 := uid_bytes.getD 1 0
            let sn2 := uid_bytes.getD 2 0
            let sn3 := uid_bytes.getD 3 0
            let sn4 := uid_bytes.getD 4 0
            let sn5 := uid_bytes.getD 5 0
            let sn6 := uid_bytes.getD 6 0
            let uid_hex := spacedHex uid_bytes
            let uid_field_matches :=
              match uid_field with
              | some uf =>
                if uf.length ≠ 14 then false
                else uf == constructedUidChars uid_bytes
              | none => true
            let expected_bcc0 := 0x88 ^^^ sn0 ^^^ sn1 ^^^ sn2
            let expected_bcc1 := sn3 ^^^ sn4 ^^^ sn5 ^^^ sn6
            let bcc0p : Bool × Nat :=
              if 4 ≤ page0.length then (page0.getD 3 0 == expected_bcc0, page0.getD 3 0)
              else (false, 0)
            match bcc1Check pages expected_bcc1 with
            | none => none
            | some (bcc1_valid, actual_bcc1) =>
              match pwPackCheck pages uid_bytes with
              | none => none
              | some (password_valid, pack_valid, actual_password, actual_pack, expPw) =>
                match validate_dlb_and_cfg pages with
                | none => none
                | some (dlb_cfg_valid, dlb_cfg_msg, dlb_valid, cfg0_valid, cfg1_valid) =>
                  let sn3_valid := !(sn3 == 0x88)
                  let sn3_status :=
                    if sn3 == 0x88 then "SN3=0x88 (PROBLEM!)"
                    else "SN3=0x" ++ hex2 sn3 ++ " (OK)"
                  let bcc0_msg :=
                    if bcc0p.1 then "BCC0=0x" ++ hex2 bcc0p.2 ++ " ✓"
                    else "BCC0=0x" ++ hex2 bcc0p.2 ++ " ✗ (expected 0x" ++ hex2 expected_bcc0 ++ ")"
                  let bcc1_msg :=
                    if bcc1_valid then "BCC1=0x" ++ hex2 actual_bcc1 ++ " ✓"
                    else "BCC1=0x" ++ hex2 actual_bcc1 ++ " ✗ (expected 0x" ++ hex2 expected_bcc1 ++ ")"
                  let bcc_msg := bcc0_msg ++ ", " ++ bcc1_msg
                  let pwd_str := spacedHex actual_password
                  let pack_str := spacedHex actual_pack
                  let exp_pwd_str := spacedHex expPw
                  let pwd_pack_msg :=
                    if password_valid && pack_valid then
                      "PWD=" ++ pwd_str ++ " ✓, PACK=" ++ pack_str ++ " ✓"
                    else if password_valid && !pack_valid then
                      "PWD=" ++ pwd_str ++ " ✓, PACK=" ++ pack_str ++ " ✗ (expected 80 80 00 00)"
                    else if !password_valid && pack_valid then
                      "PWD=" ++ pwd_str ++ " ✗ (expected " ++ exp_pwd_str ++ "), PACK=" ++
                        pack_str ++ " ✓"
                    else
                      "PWD=" ++ pwd_str ++ " ✗ (expected " ++ exp_pwd_str ++ "), PACK=" ++
                        pack_str ++ " ✗ (expected 80 80 00 00)"
                  let all_valid := sn3_valid && bcc0p.1 && bcc1_valid && password_valid &&
                    pack_valid && dlb_cfg_valid
                  let parts := [sn3_status, bcc_msg, dlb_cfg_msg, pwd_pack_msg]
                  let parts :=
                    if uid_field.isSome && !uid_field_matches then
                      ("UID field mismatch (field=" ++
                        String.mk (uid_field.getD []) ++ ", pages=" ++
                        String.mk (constructedUidChars uid_bytes) ++ ")") :: parts
                    else parts
                  some ⟨all_valid, String.intercalate " + " parts, uid_hex,
                        ⟨uid_field_matches, sn3_valid, bcc0p.1, bcc1_valid,
                         password_valid, pack_valid, dlb_valid, cfg0_valid, cfg1_valid⟩⟩
      | _, _ => none
    | _, _ => none

/-- In every result of validate_dlb_and_cfg the combined flag is the
conjunction of the three per-page flags. -/
theorem validate_dlb_and_cfg_first_eq_conj (pages : Pages)
    (t : Bool × String × Bool × Bool × Bool)
    (h : validate_dlb_and_cfg pages = some t) :
    t.1 = (t.2.2.1 && t.2.2.2.1 && t.2.2.2.2) := by
  unfold validate_dlb_and_cfg at h
  repeat' split at h
  all_goals first
    | exact Option.noConfusion h
    | (cases h; rfl)

set_option maxHeartbeats 1000000
set_option maxRecDepth 4000

/-- A pages dict a lookup succeeds on is not empty. -/
theorem pagesEmpty_false_of_has (pages : Pages) (n : Nat)
    (h : pagesHas pages n = true) : pagesEmpty pages = false := by
  cases pages with
  | nil => simp [pagesHas, pagesGet] at h
  | cons p ps => rfl

/-- C1: whenever the validator returns a diagnosis for a pages mapping holding
pages 0 and 1, the overall validity flag equals the conjunction of exactly the
eight field booleans sn3, bcc0, bcc1, password, pack, dlb, cfg0, cfg1; the
uid_field boolean is carried in the diagnosis but does not enter the
conjunction. -/
theorem C1_allValid_is_conjunction (pages : Pages) (uf : Option (List Char))
    (r : CheckResult)
    (hh0 : pagesHas pages 0 = true) (hh1 : pagesHas pages 1 = true)
    (h : check_uid_comprehensive pages uf = some r) :
    r.allValid = (r.details.sn3 && r.details.bcc0 && r.details.bcc1 &&
      r.details.password && r.details.pack && r.details.dlb &&
      r.details.cfg0 && r.details.cfg1) := by
  have hne : pagesEmpty pages = false := pagesEmpty_false_of_has pages 0 hh0
  rcases hq0 : pagesGet pages 0 with _ | g0
  · rw [pagesHas, hq0] at hh0; simp at hh0
  rcases hq1 : pagesGet pages 1 with _ | g1
  · rw [pagesHas, hq1] at hh1; simp at hh1
  rcases hv : validate_dlb_and_cfg pages with _ | ⟨dcv, msg, dlbv, c0v, c1v⟩
  · unfold check_uid_comprehensive at h
    rw [hne, hh0, hh1, hq0, hq1, hv] at h
    simp only [Bool.false_or, Bool.not_true, Bool.or_self, Bool.false_eq_true, if_false] at h
    rcases hf0 : fromhex g0 with _ | b0 <;> rw [hf0] at h <;>
      rcases hf1 : fromhex g1 with _ | b1 <;> rw [hf1] at h <;>
      simp only [] at h
    repeat'
      first
      | exact Option.noConfusion h
      | (cases h; rfl)
      | split at h
  · have hconj := validate_dlb_and_cfg_first_eq_conj pages _ hv
    simp only at hconj
    unfold check_uid_comprehensive at h
    rw [hne, hh0, hh1, hq0, hq1, hv] at h
    simp only [Bool.false_or, Bool.not_true, Bool.or_self, Bool.false_eq_true, if_false] at h
    rcases hf0 : fromhex g0 with _ | b0 <;> rw [hf0] at h <;>
      rcases hf1 : fromhex g1 with _ | b1 <;> rw [hf1] at h <;>
      simp only [] at h
    repeat'
      first
      | exact Option.noConfusion h
      | (cases h; rfl)
      | (cases h; simp only [hconj]; simp [Bool.and_assoc])
      | split at h

/-- Witness for C1 on a file holding only pages 0 and 1. -/
theorem C1_allValid_is_conjunction_witness :
    pagesHas (extract_pages_from_nfc ["Page 0: 04 AB 73 54", "Page 1: 54 B8 B6 0F"]).1 0 = true ∧
    pagesHas (extract_pages_from_nfc ["Page 0: 04 AB 73 54", "Page 1: 54 B8 B6 0F"]).1 1 = true ∧
    ((check_uid_comprehensive
        (extract_pages_from_nfc ["Page 0: 04 AB 73 54", "Page 1: 54 B8 B6 0F"]).1
        none).getD ⟨false, "", "", allFalseDetails⟩).allValid =
      (((check_uid_comprehensive
        (extract_pages_from_nfc ["Page 0: 04 AB 73 54", "Page 1: 54 B8 B6 0F"]).1
        none).getD ⟨false, "", "", allFalseDetails⟩).details.sn3 &&
       ((check_uid_comprehensive
        (extract_pages_from_nfc ["Page 0: 04 AB 73 54", "Page 1: 54 B8 B6 0F"]).1
        none).getD ⟨false, "", "", allFalseDetails⟩).details.bcc0 &&
       ((check_uid_comprehensive
        (extract_pages_from_nfc ["Page 0: 04 AB 73 54", "Page 1: 54 B8 B6 0F"]).1
        none).getD ⟨false, "", "", allFalseDetails⟩).details.bcc1 &&
       ((check_uid_comprehensive
        (extract_pages_from_nfc ["Page 0: 04 AB 73 54", "Page 1: 54 B8 B6 0F"]).1
        none).getD ⟨false, "", "", allFalseDetails⟩).details.password &&
       ((check_uid_comprehensive
        (extract_pages_from_nfc ["Page 0: 04 AB 73 54", "Page 1: 54 B8 B6 0F"]).1
        none).getD ⟨false, "", "", allFalseDetails⟩).details.pack &&
       ((check_uid_comprehensive
        (extract_pages_from_nfc ["Page 0: 04 AB 73 54", "Page 1: 54 B8 B6 0F"]).1
        none).getD ⟨false, "", "", allFalseDetails⟩).details.dlb &&
       ((check_uid_comprehensive
        (extract_pages_from_nfc ["Page 0: 04 AB 73 54", "Page 1: 54 B8 B6 0F"]).1
        none).getD ⟨false, "", "", allFalseDetails⟩).details.cfg0 &&
       ((check_uid_comprehensive
        (extract_pages_from_nfc ["Page 0: 04 AB 73 54", "Page 1: 54 B8 B6 0F"]).1
        none).getD ⟨false, "", "", allFalseDetails⟩).details.cfg1) := by
  refine ⟨by decide, by decide, ?_⟩
  exact C1_allValid_is_conjunction
    (extract_pages_from_nfc ["Page 0: 04 AB 73 54", "Page 1: 54 B8 B6 0F"]).1 none
    ((check_uid_comprehensive
        (extract_pages_from_nfc ["Page 0: 04 AB 73 54", "Page 1: 54 B8 B6 0F"]).1
        none).getD ⟨false, "", "", allFalseDetails⟩)
    (by decide) (by decide) (by decide)

/-- bcc1Check on a present, well-formed, non-empty page 2. -/
theorem bcc1Check_present (pages : Pages) (e : Nat) (g2 : List Char) (b2 : List Nat)
    (hq2 : pagesGet pages 2 = some g2) (hf2 : fromhex g2 = some b2)
    (hlen : 1 ≤ b2.length) :
    bcc1Check pages e = some (b2.getD 0 0 == e, b2.getD 0 0) := by
  unfold bcc1Check
  rw [hq2]
  simp only []
  rw [hf2]
  simp only []
  rw [if_neg (by omega)]

/-- bcc1Check on an absent page 2. -/
theorem bcc1Check_absent (pages : Pages) (e : Nat)
    (hq2 : pagesGet pages 2 = none) :
    bcc1Check pages e = some (false, 0) := by
  unfold bcc1Check
  rw [hq2]

/-- C8: with pages 0 and 1 decoding to at least 4 bytes each (so that the
7-byte UID SN0..SN6 and the stored BCC0 exist), the validator judges bcc0
true exactly when page0[3] equals 0x88 xor SN0 xor SN1 xor SN2, judges bcc1
true exactly when page2[0] equals SN3 xor SN4 xor SN5 xor SN6 for a present
non-empty page 2, and forces bcc1 false when page 2 is absent. -/
theorem C8_bcc_checks (pages : Pages) (uf : Option (List Char)) (r : CheckResult)
    (g0 g1 : List Char) (b0 b1 : List Nat)
    (hq0 : pagesGet pages 0 = some g0) (hf0 : fromhex g0 = some b0)
    (hl0 : 4 ≤ b0.length)
    (hq1 : pagesGet pages 1 = some g1) (hf1 : fromhex g1 = some b1)
    (hl1 : 4 ≤ b1.length)
    (h : check_uid_comprehensive pages uf = some r) :
    r.details.bcc0 = (b0.getD 3 0 == 0x88 ^^^ b0.getD 0 0 ^^^ b0.getD 1 0 ^^^ b0.getD 2 0) ∧
    (∀ g2 b2, pagesGet pages 2 = some g2 → fromhex g2 = some b2 → 1 ≤ b2.length →
      r.details.bcc1 =
        (b2.getD 0 0 == b1.getD 0 0 ^^^ b1.getD 1 0 ^^^ b1.getD 2 0 ^^^ b1.getD 3 0)) ∧
    (pagesGet pages 2 = none → r.details.bcc1 = false) := by
  have hh0 : pagesHas pages 0 = true := by rw [pagesHas, hq0]; rfl
  have hh1 : pagesHas pages 1 = true := by rw [pagesHas, hq1]; rfl
  have hne : pagesEmpty pages = false := pagesEmpty_false_of_has pages 0 hh0
  rcases b0 with _ | ⟨x0, _ | ⟨x1, _ | ⟨x2, _ | ⟨x3, t0⟩⟩⟩⟩ <;> simp at hl0
  rcases b1 with _ | ⟨y0, _ | ⟨y1, _ | ⟨y2, _ | ⟨y3, t1⟩⟩⟩⟩ <;> simp at hl1
  unfold check_uid_comprehensive at h
  rw [hne, hh0, hh1, hq0, hq1] at h
  simp only [Bool.false_or, Bool.not_true, Bool.or_self, Bool.false_eq_true, if_false] at h
  rw [hf0, hf1] at h
  simp only [List.take_succ_cons, List.take_zero, List.cons_append, List.nil_append,
    List.length_cons, List.getD_cons_zero, List.getD_cons_succ] at h
  rw [if_pos (show 4 ≤ t0.length + 1 + 1 + 1 + 1 by omega)] at h
  rcases hbc : bcc1Check pages (y0 ^^^ y1 ^^^ y2 ^^^ y3) with _ | ⟨bv, av⟩ <;>
    rw [hbc] at h
  · exact Option.noConfusion h
  rcases hpw : pwPackCheck pages [x0, x1, x2, y0, y1, y2, y3] with _ | ⟨pv, kv, ap, ak, ep⟩ <;>
    rw [hpw] at h
  · exact Option.noConfusion h
  rcases hv : validate_dlb_and_cfg pages with _ | ⟨dcv, msg, dlbv, c0v, c1v⟩ <;>
    rw [hv] at h
  · exact Option.noConfusion h
  simp only [] at h
  cases h
  refine ⟨?_, ?_, ?_⟩
  · simp
  · intro g2 b2 hg2 hfx2 hlb2
    have heq := bcc1Check_present pages (y0 ^^^ y1 ^^^ y2 ^^^ y3) g2 b2 hg2 hfx2 hlb2
    rw [hbc] at heq
    simp only [Option.some.injEq, Prod.mk.injEq] at heq
    simp [heq.1, List.getD]
  · intro hg2
    have heq := bcc1Check_absent pages (y0 ^^^ y1 ^^^ y2 ^^^ y3) hg2
    rw [hbc] at heq
    simp only [Option.some.injEq, Prod.mk.injEq] at heq
    simp only [heq.1]

/-- Concrete three-page file for the C8 witness. -/
def c8pages : Pages :=
  (extract_pages_from_nfc
    ["Page 0: 04 AB 73 54", "Page 1: 54 B8 B6 0F", "Page 2: 55 00 00 00"]).1

/-- Witness for C8 on a concrete file with pages 0, 1, 2. -/
theorem C8_bcc_checks_witness :
    ((check_uid_comprehensive c8pages none).getD
        ⟨false, "", "", allFalseDetails⟩).details.bcc0 =
      (([0x04, 0xAB, 0x73, 0x54] : List Nat).getD 3 0 ==
        0x88 ^^^ ([0x04, 0xAB, 0x73, 0x54] : List Nat).getD 0 0 ^^^
          ([0x04, 0xAB, 0x73, 0x54] : List Nat).getD 1 0 ^^^
          ([0x04, 0xAB, 0x73, 0x54] : List Nat).getD 2 0) ∧
    ((check_uid_comprehensive c8pages none).getD
        ⟨false, "", "", allFalseDetails⟩).details.bcc1 =
      (([0x55, 0x00, 0x00, 0x00] : List Nat).getD 0 0 ==
        ([0x54, 0xB8, 0xB6, 0x0F] : List Nat).getD 0 0 ^^^
          ([0x54, 0xB8, 0xB6, 0x0F] : List Nat).getD 1 0 ^^^
          ([0x54, 0xB8, 0xB6, 0x0F] : List Nat).getD 2 0 ^^^
          ([0x54, 0xB8, 0xB6, 0x0F] : List Nat).getD 3 0) := by
  have h := C8_bcc_checks c8pages none
    ((check_uid_comprehensive c8pages none).getD ⟨false, "", "", allFalseDetails⟩)
    "04AB7354".toList "54B8B60F".toList
    [0x04, 0xAB, 0x73, 0x54] [0x54, 0xB8, 0xB6, 0x0F]
    (by decide) (by decide) (by decide) (by decide) (by decide) (by decide) (by decide)
  exact ⟨h.1, h.2.1 "55000000".toList [0x55, 0x00, 0x00, 0x00]
    (by decide) (by decide) (by decide)⟩

/-! ## The version upgrader -/

/-- Greatest page number of the dict, the source's max(pages.keys()). -/
def maxKey (ps : Pages) : Nat :=
  ps.foldl (fun m p => max m p.1) 0

/-- Page count chosen by convert_to_v4_format:
max(pages.keys()) + 1 if pages else 135. -/
def pageCountOf (ps : Pages) : Nat :=
  if pagesEmpty ps then 135 else maxKey ps + 1

/-- Hex characters regrouped in pairs, the source's generator
page_data[i:i+2] over range(0, len, 2). -/
def chunks2 : List Char → List (List Char)
  | [] => []
  | [c] => [[c]]
  | a :: b :: rest => [a, b] :: chunks2 rest

/-- Chunks joined by single spaces, the source's ' '.join. -/
def joinSpaces : List (List Char) → List Char
  | [] => []
  | [x] => x
  | x :: xs => x ++ ' ' :: joinSpaces xs

/-- The source's formatted_data.upper() for one page's hex data. -/
def formatPageData (pd : List Char) : String :=
  String.mk ((joinSpaces (chunks2 pd)).map Char.toUpper)

/-- One line of the page table: the stored data formatted, or the 00 00 00 00
filler for a page absent from the dict. -/
def pageLine (ps : Pages) (n : Nat) : String :=
  match pagesGet ps n with
  | some pd => "Page " ++ toString n ++ ": " ++ formatPageData pd
  | none => "Page " ++ toString n ++ ": 00 00 00 00"

/-- The page-table block of the V4 document. -/
def pageLinesBlock (ps : Pages) (pageCount : Nat) : List String :=
  (List.range pageCount).map (pageLine ps)

/-- The fixed header of the V4 document emitted by convert_to_v4_format, with
the UID line and the two page-count lines interpolated. -/
def v4HeaderLines (uidHex : String) (pageCount : Nat) : List String :=
  ["Filetype: Flipper NFC device",
   "Version: 4",
   "# Device type can be ISO14443-3A, ISO14443-3B, ISO14443-4A, ISO14443-4B, ISO15693-3, FeliCa, NTAG/Ultralight, Mifare Classic, Mifare Plus, Mifare DESFire, SLIX, ST25TB, EMV",
   "Device type: NTAG/Ultralight",
   "# UID is common for all formats",
   "UID: " ++ uidHex,
   "# ISO14443-3A specific data",
   "ATQA: 00 44",
   "SAK: 00",
   "# NTAG/Ultralight specific data",
   "Data format version: 2",
   "NTAG/Ultralight type: NTAG215",
   "Signature: 00 00 00 00 00 00 00 00 00 00 00 00 00 00 00 00 00 00 00 00 00 00 00 00 00 00 00 00 00 00 00 00",
   "Mifare version: 00 04 04 02 01 00 11 03",
   "Counter 0: 0",
   "Tearing 0: 00",
   "Counter 1: 0",
   "Tearing 1: 00",
   "Counter 2: 0",
   "Tearing 2: 00",
   "Pages total: " ++ toString pageCount,
   "Pages read: " ++ toString pageCount]

/-- Embedding of convert_to_v4_format, returning the lines of the emitted V4
document (the source returns one string that ends with a newline; the final
empty line of its split is included). Returns none where the source would
raise from bytes.fromhex on pages 0 or 1. -/
def convert_to_v4_format (ps : Pages) : Option (List String) :=
  let pageCount := pageCountOf ps
  let mkDoc := fun (uidHex : String) =>
    v4HeaderLines uidHex pageCount ++ pageLinesBlock ps pageCount ++
      ["Failed authentication attempts: 0", ""]
  if pagesHas ps 0 && pagesHas ps 1 then
    match pagesGet ps 0, pagesGet ps 1 with
    | some h0, some h1 =>
      match fromhex h0, fromhex h1 with
      | some p0, some p1 => some (mkDoc (spacedHex (p0.take 3 ++ p1.take 4)))
      | _, _ => none
    | _, _ => none
  else some (mkDoc "04 AB 73 54 B8 B6 0F")

/-- A V2 image carrying exactly pages 0 and 1, as parsed from its lines. -/
def c2pages : Pages :=
  (extract_pages_from_nfc
    ["Filetype: Flipper NFC device", "Version: 2",
     "Page 0: 04 AB 73 54", "Page 1: B8 B6 0F 00"]).1

/-- Counterexample to C2: on a V2 image holding exactly pages 0 and 1 the
upgrader sizes the page table to max(pages)+1 = 2, so the emitted document has
2 page lines and a line reading Pages total: 2; it has no line reading
Pages total: 135. -/
theorem C2_counterexample :
    ((convert_to_v4_format c2pages).map (fun doc =>
        (decide ("Pages total: 135" ∈ doc), decide ("Pages total: 2" ∈ doc)))) =
      some (false, true) ∧
    (pageLinesBlock c2pages (pageCountOf c2pages)).length = 2 := by
  decide

/-- C2 as amended: for a non-empty pages mapping the upgraded document has
max(pages)+1 page lines (not always 135), a line reading Pages total:
max(pages)+1, a Version: 4 line, and every in-range page absent from the input
rendered as 00 00 00 00; every page line occurs in the document. -/
theorem C2_upgrade_shape (ps : Pages) (doc : List String)
    (hne : pagesEmpty ps = false)
    (h : convert_to_v4_format ps = some doc) :
    pageCountOf ps = maxKey ps + 1 ∧
    (pageLinesBlock ps (pageCountOf ps)).length = maxKey ps + 1 ∧
    "Version: 4" ∈ doc ∧
    ("Pages total: " ++ toString (pageCountOf ps)) ∈ doc ∧
    (∀ n, n < pageCountOf ps → pagesGet ps n = none →
      (pageLinesBlock ps (pageCountOf ps))[n]? =
        some ("Page " ++ toString n ++ ": 00 00 00 00")) ∧
    (∀ l ∈ pageLinesBlock ps (pageCountOf ps), l ∈ doc) := by
  have hpc : pageCountOf ps = maxKey ps + 1 := by
    rw [pageCountOf, hne]; simp
  have hdoc : ∃ u, doc = v4HeaderLines u (pageCountOf ps) ++
      pageLinesBlock ps (pageCountOf ps) ++ ["Failed authentication attempts: 0", ""] := by
    unfold convert_to_v4_format at h
    repeat' first
      | exact Option.noConfusion h
      | (cases h; exact ⟨_, rfl⟩)
      | split at h
  obtain ⟨u, rfl⟩ := hdoc
  refine ⟨hpc, ?_, ?_, ?_, ?_, ?_⟩
  · simp [pageLinesBlock, hpc]
  · simp [v4HeaderLines, List.mem_append, List.mem_cons]
  · simp [v4HeaderLines, List.mem_append, List.mem_cons]
  · intro n hn hnone
    simp only [pageLinesBlock, List.getElem?_map, List.getElem?_range, hn, if_pos]
    unfold pageLine
    simp only [Option.map_some']
    rw [hnone]
  · intro l hl
    simp only [List.mem_append]
    exact Or.inl (Or.inr hl)

/-- Witness for the amended C2 on the concrete two-page V2 image. -/
theorem C2_upgrade_shape_witness :
    "Version: 4" ∈ (convert_to_v4_format c2pages).getD [] ∧
    ("Pages total: " ++ toString (pageCountOf c2pages)) ∈
      (convert_to_v4_format c2pages).getD [] := by
  have h := C2_upgrade_shape c2pages ((convert_to_v4_format c2pages).getD [])
    (by decide) (by decide)
  exact ⟨h.2.2.1, h.2.2.2.1⟩

/-! ## The repair planner and the text encoder -/

/-- The six per-category fix toggles of the source, all enabled by default. -/
structure Flags where
  fix_uid : Bool := true
  fix_bcc : Bool := true
  fix_password : Bool := true
  fix_pack : Bool := true
  fix_dlb : Bool := true
  fix_cfg : Bool := true
deriving DecidableEq, Repr

/-- All fix categories enabled, the source's defaults. -/
def allFlags : Flags := {}

/-- One planning step for a page that must hold a known 4-byte value
(password, PACK, DLB, CFG0, CFG1 all share this shape in the source): when the
category is enabled and the page is present, decode it (raising on malformed
hex) and schedule a change when its first 4 bytes differ from the correct
value; a short page schedules nothing. Returns the change messages and the
issue flag. -/
def pageConstStep (enabled : Bool) (pages : Pages) (n : Nat) (correct : List Nat)
    (label : String) : Option (List String × Bool) :=
  match enabled, pagesGet pages n with
  | true, some h =>
    (fromhex h).map (fun p =>
      (if 4 ≤ p.length ∧ p.take 4 ≠ correct then
        ["Fixed " ++ label ++ ": " ++ spacedHex (p.take 4) ++ " -> " ++ spacedHex correct]
       else [],
       decide (4 ≤ p.length ∧ p.take 4 ≠ correct)))
  | _, _ => some ([], false)

/-- The repair plan computed by the first half of fix_nfc_file (and, with the
same shape, by fix_bin_file): the effective
UID after the SN3 step, the recomputed BCC and password values, the ordered
change descriptions, and the issue flags. -/
structure RepairPlan where
  uid : List Nat
  correctBcc0 : Nat
  correctBcc1 : Nat
  correctPwd : List Nat
  changes : List String
  issues : Details
deriving DecidableEq, Repr

/-- Planning half of fix_nfc_file (source lines 444 through 535): reads pages
0/1, runs the UID-field and SN3 steps, recomputes BCC0/BCC1/password from the
effective UID and schedules every enabled, applicable change in the source's
order. none marks an escaped exception (malformed hex or a UID that does not
unpack into 7 bytes). -/
def nfcPlan (pages : Pages) (uid_field : Option (List Char)) (fl : Flags) (rnd : Nat) :
    Option RepairPlan :=
  match pagesGet pages 0, pagesGet pages 1 with
  | some h0, some h1 =>
    match fromhex h0, fromhex h1 with
    | some page0, some page1 =>
      let uid0 := page0.take 3 ++ page1.take 4
      let uidFieldChg : Bool :=
        match fl.fix_uid, uid_field with
        | true, some uf => uf.length == 14 && uf != constructedUidChars uid0
        | _, _ => false
      let uidFieldMsgs := if uidFieldChg then
          ["Fixed UID field to match pages: " ++ String.mk (uid_field.getD []) ++
            " -> " ++ String.mk (constructedUidChars uid0)]
        else []
      let fixRes := if fl.fix_uid then fix_uid_if_sn3_is_88 rnd uid0 else (uid0, false)
      let uid1 := fixRes.1
      let sn3Fixed := fixRes.2
      let sn3Msgs := if sn3Fixed then
          ["Fixed CT in SN3 from 0x88 to 0x" ++ hex2 (uid1.getD 3 0)]
        else []
      -- Python unpacks sn0..sn6 here, raising unless the length is exactly 7.
      if uid1.length ≠ 7 then none
      else
        let correctBcc0 := 0x88 ^^^ uid1.getD 0 0 ^^^ uid1.getD 1 0 ^^^ uid1.getD 2 0
        let correctBcc1 := uid1.getD 3 0 ^^^ uid1.getD 4 0 ^^^ uid1.getD 5 0 ^^^ uid1.getD 6 0
        let currentBcc0 := if 4 ≤ page0.length then page0.getD 3 0 else 0
        let bcc0Chg := fl.fix_bcc && currentBcc0 != correctBcc0
        let bcc0Msgs := if bcc0Chg then
            ["Fixed BCC0: " ++ hex2 currentBcc0 ++ " -> " ++ hex2 correctBcc0]
          else []
        let bcc1Step : Option (List String × Bool) :=
          match fl.fix_bcc, pagesGet pages 2 with
          | true, some h2 =>
            (fromhex h2).map (fun p2 =>
              (if 1 ≤ p2.length ∧ p2.getD 0 0 ≠ correctBcc1 then
                ["Fixed BCC1: " ++ hex2 (p2.getD 0 0) ++ " -> " ++ hex2 correctBcc1]
               else [],
               decide (1 ≤ p2.length ∧ p2.getD 0 0 ≠ correctBcc1)))
          | _, _ => some ([], false)
        match bcc1Step with
        | none => none
        | some (bcc1Msgs, bcc1Chg) =>
          match calculate_password_from_uid uid1 with
          | none => none
          | some correctPwd =>
            match pageConstStep fl.fix_password pages 133 correctPwd "Password" with
            | none => none
            | some (pwdMsgs, pwdChg) =>
              match pageConstStep fl.fix_pack pages 134 expected_pack "PACK" with
              | none => none
              | some (packMsgs, packChg) =>
                match pageConstStep fl.fix_dlb pages 130 expected_dlb "DLB" with
                | none => none
                | some (dlbMsgs, dlbChg) =>
                  match pageConstStep fl.fix_cfg pages 131 expected_cfg0 "CFG0" with
                  | none => none
                  | some (cfg0Msgs, cfg0Chg) =>
                    match pageConstStep fl.fix_cfg pages 132 expected_cfg1 "CFG1" with
                    | none => none
                    | some (cfg1Msgs, cfg1Chg) =>
                      some ⟨uid1, correctBcc0, correctBcc1, correctPwd,
                            uidFieldMsgs ++ sn3Msgs ++ bcc0Msgs ++ bcc1Msgs ++ pwdMsgs ++
                              packMsgs ++ dlbMsgs ++ cfg0Msgs ++ cfg1Msgs,
                            ⟨uidFieldChg, sn3Fixed, bcc0Chg, bcc1Chg, pwdChg, packChg,
                             dlbChg, cfg0Chg, cfg1Chg⟩⟩
    | _, _ => none
  | _, _ => none

/-- Rewriting of one source line by fix_nfc_file (source lines 542 through
590): a UID line is re-rendered when fix_uid is on; a page line in an enabled
category is re-rendered from the plan; every other line is kept verbatim. The
page-2 branch re-decodes the stored page and indexes bytes 1..3, raising
(none) on malformed or short data exactly as the source does. -/
def rewriteNfcLine (fl : Flags) (pages : Pages) (pl : RepairPlan) (line : String) :
    Option String :=
  match searchUid line.toList, fl.fix_uid with
  | some _, true => some ("UID: " ++ spacedHex pl.uid)
  | _, _ =>
    match searchPage line.toList with
    | none => some line
    | some (n, _) =>
      if n == 0 && (fl.fix_uid || fl.fix_bcc) then
        some ("Page 0: " ++ spacedHex (pl.uid.take 3 ++ [pl.correctBcc0]))
      else if n == 1 && fl.fix_uid then
        some ("Page 1: " ++ spacedHex (pl.uid.drop 3))
      else if n == 2 && fl.fix_bcc then
        match pagesGet pages 2 with
        | none => none
        | some h2 =>
          match fromhex h2 with
          | none => none
          | some p2 =>
            match p2[1]?, p2[2]?, p2[3]? with
            | some a1, some a2, some a3 =>
              some ("Page 2: " ++ spacedHex [pl.correctBcc1, a1, a2, a3])
            | _, _, _ => none
      else if n == 130 && fl.fix_dlb then some ("Page 130: " ++ spacedHex expected_dlb)
      else if n == 131 && fl.fix_cfg then some ("Page 131: " ++ spacedHex expected_cfg0)
      else if n == 132 && fl.fix_cfg then some ("Page 132: " ++ spacedHex expected_cfg1)
      else if n == 133 && fl.fix_password then some ("Page 133: " ++ spacedHex pl.correctPwd)
      else if n == 134 && fl.fix_pack then some ("Page 134: " ++ spacedHex expected_pack)
      else some line

/-- Sequential effectful map over the lines, mirroring the source's rewrite
loop: the first raised exception aborts the whole rewrite. -/
def traverseOpt {α β : Type} (f : α → Option β) : List α → Option (List β)
  | [] => some []
  | a :: as =>
    match f a with
    | none => none
    | some b =>
      match traverseOpt f as with
      | none => none
      | some bs => some (b :: bs)

/-- Result of one run of a repairer. The issues field is none where the
source returns its empty dict; newLines (or newData for binary) carries the
content written back, none meaning no write happened; didBackup records
whether the backup step ran. -/
structure NfcFixRes where
  success : Bool
  message : String
  issues : Option Details
  newLines : Option (List String)
  didBackup : Bool
deriving DecidableEq, Repr

/-- Embedding of fix_nfc_file on the split lines of the file. The final write
is modelled as always succeeding, its content returned in newLines. -/
def fix_nfc_file (lines : List String) (fl : Flags) (rnd : Nat) : Option NfcFixRes :=
  let ex := extract_pages_from_nfc lines
  let pages := ex.1
  let uid_field := ex.2.1
  if pagesEmpty pages then some ⟨false, "Could not read file", none, none, false⟩
  else if !(pagesHas pages 0 && pagesHas pages 1) then
    some ⟨false, "Missing required pages 0 or 1", none, none, false⟩
  else
    match nfcPlan pages uid_field fl rnd with
    | none => none
    | some pl =>
      if pl.changes.isEmpty then some ⟨true, "No changes needed", none, none, false⟩
      else
        match traverseOpt (rewriteNfcLine fl pages pl) lines with
        | none => none
        | some nl =>
          some ⟨true, "Fixed successfully. Changes: " ++ String.intercalate "; " pl.changes,
                some pl.issues, some nl, true⟩

/-- The set of page numbers the rewrite loop re-renders under a given flag
assignment: this is determined by the enabled categories alone, not by which
changes were actually scheduled. -/
def rewrittenPage (fl : Flags) (n : Nat) : Bool :=
  (n == 0 && (fl.fix_uid || fl.fix_bcc)) || (n == 1 && fl.fix_uid) ||
  (n == 2 && fl.fix_bcc) || (n == 130 && fl.fix_dlb) || (n == 131 && fl.fix_cfg) ||
  (n == 132 && fl.fix_cfg) || (n == 133 && fl.fix_password) || (n == 134 && fl.fix_pack)

/-- A line that is neither a UID line with fix_uid enabled nor a page line of
a re-rendered page number passes through the rewrite loop verbatim. -/
theorem rewriteNfcLine_preserves (fl : Flags) (pages : Pages) (pl : RepairPlan)
    (line : String)
    (hu : searchUid line.toList = none ∨ fl.fix_uid = false)
    (hp : ∀ n g, searchPage line.toList = some (n, g) → rewrittenPage fl n = false) :
    rewriteNfcLine fl pages pl line = some line := by
  unfold rewriteNfcLine
  rcases hsu : searchUid line.toList with _ | g <;>
    rcases hsp : searchPage line.toList with _ | ⟨n, gp⟩
  · simp only []
  · have hc := hp n gp hsp
    simp only [rewrittenPage, Bool.or_eq_false_iff] at hc
    obtain ⟨⟨⟨⟨⟨⟨⟨c0, c1⟩, c2⟩, c130⟩, c131⟩, c132⟩, c133⟩, c134⟩ := hc
    simp only [c0, c1, c2, c130, c131, c132, c133, c134, Bool.false_eq_true, if_false]
  · rcases hu with hu | hu
    · exact Option.noConfusion (hsu ▸ hu)
    · simp only [hu]
  · rcases hu with hu | hu
    · exact Option.noConfusion (hsu ▸ hu)
    · have hc := hp n gp hsp
      simp only [rewrittenPage, Bool.or_eq_false_iff] at hc
      obtain ⟨⟨⟨⟨⟨⟨⟨c0, c1⟩, c2⟩, c130⟩, c131⟩, c132⟩, c133⟩, c134⟩ := hc
      simp only [hu, Bool.false_or] at c0
      simp only [hu, Bool.false_or, Bool.and_false, c0, c2, c130, c131, c132, c133, c134,
        Bool.false_eq_true, if_false]

/-- A successful traverseOpt preserves the length. -/
theorem traverseOpt_length {α β : Type} (f : α → Option β) (l : List α)
    (out : List β) (h : traverseOpt f l = some out) : out.length = l.length := by
  induction l generalizing out with
  | nil => cases h; rfl
  | cons a as ih =>
    unfold traverseOpt at h
    rcases hf : f a with _ | b <;> rw [hf] at h
    · exact Option.noConfusion h
    · rcases ht : traverseOpt f as with _ | bs <;> rw [ht] at h
      · exact Option.noConfusion h
      · cases h
        simp [ih bs ht]

/-- A successful traverseOpt maps each position of the input to the same
position of the output. -/
theorem traverseOpt_getD {α β : Type} (f : α → Option β) (l : List α)
    (out : List β) (h : traverseOpt f l = some out) (da : α) (db : β) :
    ∀ i, i < l.length → f (l.getD i da) = some (out.getD i db) := by
  induction l generalizing out with
  | nil => intro i hi; simp at hi
  | cons a as ih =>
    unfold traverseOpt at h
    rcases hf : f a with _ | b <;> rw [hf] at h
    · exact Option.noConfusion h
    · rcases ht : traverseOpt f as with _ | bs <;> rw [ht] at h
      · exact Option.noConfusion h
      · cases h
        intro i hi
        cases i with
        | zero => simpa using hf
        | succ j =>
          have := ih bs ht j (by simpa using hi)
          simpa using this

/-- C3 as amended: when the repairer rewrites the file, the output has one
line per input line, and every line that is neither a UID declaration (with
fix_uid enabled) nor a page line of a page number in an enabled fix category
is preserved character for character. Page lines in enabled categories are
re-rendered canonically even when no change was scheduled for them, which is
what the counterexample exhibits. -/
theorem C3_rewrite_frame (lines : List String) (fl : Flags) (rnd : Nat)
    (res : NfcFixRes) (out : List String)
    (h : fix_nfc_file lines fl rnd = some res) (hout : res.newLines = some out) :
    out.length = lines.length ∧
    ∀ i, i < lines.length →
      (searchUid (lines.getD i "").toList = none ∨ fl.fix_uid = false) →
      (∀ n g, searchPage (lines.getD i "").toList = some (n, g) →
        rewrittenPage fl n = false) →
      out.getD i "" = lines.getD i "" := by
  unfold fix_nfc_file at h
  simp only [] at h
  split at h
  · cases h; exact Option.noConfusion hout
  · split at h
    · cases h; exact Option.noConfusion hout
    · rcases hpl : nfcPlan (extract_pages_from_nfc lines).1
          (extract_pages_from_nfc lines).2.1 fl rnd with _ | pl <;> rw [hpl] at h
      · exact Option.noConfusion h
      · simp only [] at h
        split at h
        · cases h; exact Option.noConfusion hout
        · rcases htr : traverseOpt (rewriteNfcLine fl (extract_pages_from_nfc lines).1 pl)
              lines with _ | nl <;> rw [htr] at h
          · exact Option.noConfusion h
          · cases h
            simp only [Option.some.injEq] at hout
            subst hout
            refine ⟨traverseOpt_length _ _ _ htr, ?_⟩
            intro i hi hu hp
            have hmap := traverseOpt_getD _ _ _ htr "" "" i hi
            have hkeep := rewriteNfcLine_preserves fl
              (extract_pages_from_nfc lines).1 pl (lines.getD i "") hu hp
            rw [hkeep] at hmap
            injection hmap with hmap
            exact hmap.symm

/-- The input file of the C3 counterexample: page 0 is stored in lowercase
hex and is fully correct (BCC0 matches, SN3 is not 0x88), and only page 134
(PACK) is scheduled for change. -/
def c3lines : List String :=
  ["Page 0: 04 ab 73 54", "Page 1: B8 B6 0F 11", "Page 134: 00 00 00 00"]

/-- Counterexample to C3: rewriting this file schedules only the PACK change
(no UID, SN3, BCC0 or BCC1 issue), yet the page 0 line comes back
re-canonicalized to uppercase, so a line that was never scheduled for change
differs character for character from the original. -/
theorem C3_counterexample :
    ((fix_nfc_file c3lines allFlags 0).map (fun res =>
        (res.issues.map (fun i => (i.uid_field, i.sn3, i.bcc0, i.bcc1, i.pack)),
         res.newLines.map (fun out => out.getD 0 "")))) =
      some (some (false, false, false, false, true), some "Page 0: 04 AB 73 54") ∧
    c3lines.getD 0 "" = "Page 0: 04 ab 73 54" := by
  exact ⟨rfl, rfl⟩

/-- Default result used to name the concrete run in the C3 witness. -/
def defaultNfcFixRes : NfcFixRes := ⟨false, "", none, none, false⟩

/-- The input file of the C3 witness: a comment line rides along a repair
that rewrites PACK. -/
def c3wlines : List String :=
  ["# hello", "Page 0: 04 AB 73 54", "Page 1: B8 B6 0F 11", "Page 134: 00 00 00 00"]

/-- Witness for the amended C3: on a concrete repair run the comment line at
index 0 survives verbatim and the line count is preserved. -/
theorem C3_rewrite_frame_witness :
    (((fix_nfc_file c3wlines allFlags 0).getD defaultNfcFixRes).newLines.getD []).length =
      c3wlines.length ∧
    (((fix_nfc_file c3wlines allFlags 0).getD defaultNfcFixRes).newLines.getD []).getD 0 "" =
      c3wlines.getD 0 "" := by
  have h := C3_rewrite_frame c3wlines allFlags 0
    ((fix_nfc_file c3wlines allFlags 0).getD defaultNfcFixRes)
    (((fix_nfc_file c3wlines allFlags 0).getD defaultNfcFixRes).newLines.getD [])
    (by decide) (by decide)
  refine ⟨h.1, h.2 0 (by decide) (Or.inl (by decide)) ?_⟩
  intro n g hng
  rw [show searchPage (c3wlines.getD 0 "").toList = none from by decide] at hng
  exact Option.noConfusion hng

/-! ## The binary codec and repairer -/

/-- Python list slicing data[a:b] (with a ≤ b), total on out-of-range bounds. -/
def pySlice (d : List Nat) (a b : Nat) : List Nat :=
  (d.drop a).take (b - a)

/-- Embedding of extract_pages_from_bin: a buffer shorter than 540 bytes is
rejected; otherwise each tracked page n whose 4-byte window fits is stored as
its uppercase hex string (the source's data.hex().upper()), and the raw buffer
is returned alongside. -/
def extract_pages_from_bin (d : List Nat) : Option (Pages × List Nat) :=
  if d.length < 540 then none
  else
    some (([0, 1, 2, 130, 131, 132, 133, 134].foldl
      (fun ps n =>
        if n * 4 + 4 ≤ d.length then
          pagesSet ps n (bytesToHexChars (pySlice d (n * 4) (n * 4 + 4)))
        else ps) []), d)

/-- Python slice assignment new_data[a : a+len(vals)] = vals (equal lengths,
in bounds at every call site of the source). -/
def listSetSlice (d : List Nat) (a : Nat) (vals : List Nat) : List Nat :=
  d.take a ++ vals ++ d.drop (a + vals.length)

/-- Planning half of fix_bin_file (source lines 624 through 706): identical to
the text planner except that there is no UID-field step and the stored BCC0
is read without a length guard (an IndexError the source would raise is
modelled as none). -/
def binPlan (pages : Pages) (fl : Flags) (rnd : Nat) : Option RepairPlan :=
  match pagesGet pages 0, pagesGet pages 1 with
  | some h0, some h1 =>
    match fromhex h0, fromhex h1 with
    | some page0, some page1 =>
      let uid0 := page0.take 3 ++ page1.take 4
      let fixRes := if fl.fix_uid then fix_uid_if_sn3_is_88 rnd uid0 else (uid0, false)
      let uid1 := fixRes.1
      let sn3Fixed := fixRes.2
      let sn3Msgs := if sn3Fixed then
          ["Fixed CT in SN3 from 0x88 to 0x" ++ hex2 (uid1.getD 3 0)]
        else []
      -- Python unpacks sn0..sn6 here, raising unless the length is exactly 7,
      -- and then reads page0_bytes[3] with no guard, raising on a short page.
      if uid1.length ≠ 7 then none
      else
        match page0[3]? with
        | none => none
        | some currentBcc0 =>
          let correctBcc0 := 0x88 ^^^ uid1.getD 0 0 ^^^ uid1.getD 1 0 ^^^ uid1.getD 2 0
          let correctBcc1 :=
            uid1.getD 3 0 ^^^ uid1.getD 4 0 ^^^ uid1.getD 5 0 ^^^ uid1.getD 6 0
          let bcc0Chg := fl.fix_bcc && currentBcc0 != correctBcc0
          let bcc0Msgs := if bcc0Chg then
              ["Fixed BCC0: " ++ hex2 currentBcc0 ++ " -> " ++ hex2 correctBcc0]
            else []
          let bcc1Step : Option (List String × Bool) :=
            match fl.fix_bcc, pagesGet pages 2 with
            | true, some h2 =>
              (fromhex h2).map (fun p2 =>
                (if 1 ≤ p2.length ∧ p2.getD 0 0 ≠ correctBcc1 then
                  ["Fixed BCC1: " ++ hex2 (p2.getD 0 0) ++ " -> " ++ hex2 correctBcc1]
                 else [],
                 decide (1 ≤ p2.length ∧ p2.getD 0 0 ≠ correctBcc1)))
            | _, _ => some ([], false)
          match bcc1Step with
          | none => none
          | some (bcc1Msgs, bcc1Chg) =>
            match calculate_password_from_uid uid1 with
            | none => none
            | some correctPwd =>
              match pageConstStep fl.fix_password pages 133 correctPwd "Password" with
              | none => none
              | some (pwdMsgs, pwdChg) =>
                match pageConstStep fl.fix_pack pages 134 expected_pack "PACK" with
                | none => none
                | some (packMsgs, packChg) =>
                  match pageConstStep fl.fix_dlb pages 130 expected_dlb "DLB" with
                  | none => none
                  | some (dlbMsgs, dlbChg) =>
                    match pageConstStep fl.fix_cfg pages 131 expected_cfg0 "CFG0" with
                    | none => none
                    | some (cfg0Msgs, cfg0Chg) =>
                      match pageConstStep fl.fix_cfg pages 132 expected_cfg1 "CFG1" with
                      | none => none
                      | some (cfg1Msgs, cfg1Chg) =>
                        some ⟨uid1, correctBcc0, correctBcc1, correctPwd,
                              sn3Msgs ++ bcc0Msgs ++ bcc1Msgs ++ pwdMsgs ++ packMsgs ++
                                dlbMsgs ++ cfg0Msgs ++ cfg1Msgs,
                              ⟨false, sn3Fixed, bcc0Chg, bcc1Chg, pwdChg, packChg,
                               dlbChg, cfg0Chg, cfg1Chg⟩⟩
    | _, _ => none
  | _, _ => none

/-- The write half of fix_bin_file (source lines 712 through 743): the
conditional mutations of the copied buffer, in source order. -/
def applyBinWrites (data : List Nat) (pages : Pages) (fl : Flags) (pl : RepairPlan) :
    List Nat :=
  let d0 := if fl.fix_uid then
      ((data.set 0 (pl.uid.getD 0 0)).set 1 (pl.uid.getD 1 0)).set 2 (pl.uid.getD 2 0)
    else data
  let d1 := if fl.fix_bcc then d0.set 3 pl.correctBcc0 else d0
  let d2 := if fl.fix_uid then
      (((d1.set 4 (pl.uid.getD 3 0)).set 5 (pl.uid.getD 4 0)).set 6
        (pl.uid.getD 5 0)).set 7 (pl.uid.getD 6 0)
    else d1
  let d3 := if fl.fix_bcc && pagesHas pages 2 then d2.set 8 pl.correctBcc1 else d2
  let d4 := if fl.fix_dlb && pagesHas pages 130 then listSetSlice d3 520 expected_dlb else d3
  let d5 := if fl.fix_cfg && pagesHas pages 131 then listSetSlice d4 524 expected_cfg0 else d4
  let d6 := if fl.fix_cfg && pagesHas pages 132 then listSetSlice d5 528 expected_cfg1 else d5
  let d7 := if fl.fix_password && pagesHas pages 133 then listSetSlice d6 532 pl.correctPwd
    else d6
  if fl.fix_pack && pagesHas pages 134 then listSetSlice d7 536 expected_pack else d7

/-- Result of one fix_bin_file run, mirroring NfcFixRes for the binary codec. -/
structure BinFixRes where
  success : Bool
  message : String
  issues : Option Details
  newData : Option (List Nat)
  didBackup : Bool
deriving DecidableEq, Repr

/-- Embedding of fix_bin_file. The final write is modelled as always
succeeding, its content returned in newData. -/
def fix_bin_file (data : List Nat) (fl : Flags) (rnd : Nat) : Option BinFixRes :=
  match extract_pages_from_bin data with
  | none => some ⟨false, "Could not read file", none, none, false⟩
  | some (pages, original) =>
    if pagesEmpty pages then some ⟨false, "Could not read file", none, none, false⟩
    else if !(pagesHas pages 0 && pagesHas pages 1) then
      some ⟨false, "Missing required pages 0 or 1", none, none, false⟩
    else
      match binPlan pages fl rnd with
      | none => none
      | some pl =>
        if pl.changes.isEmpty then some ⟨true, "No changes needed", none, none, false⟩
        else
          some ⟨true, "Fixed successfully. Changes: " ++ String.intercalate "; " pl.changes,
                some pl.issues, some (applyBinWrites original pages fl pl), true⟩

/-! ## Frame lemmas for the binary writer -/

/-- The buffer relation of claim C7: same length, and untouched outside the
tracked ranges 0..8 and 520..539. -/
def framePreserved (old new : List Nat) : Prop :=
  new.length = old.length ∧
  ∀ i, ¬ i ≤ 8 → ¬ (520 ≤ i ∧ i ≤ 539) → new[i]? = old[i]?

theorem fp_refl (l : List Nat) : framePreserved l l :=
  ⟨rfl, fun _ _ _ => rfl⟩

theorem fp_trans {a b c : List Nat} (h1 : framePreserved a b) (h2 : framePreserved b c) :
    framePreserved a c :=
  ⟨h2.1.trans h1.1, fun i hi1 hi2 => (h2.2 i hi1 hi2).trans (h1.2 i hi1 hi2)⟩

/-- Setting one byte inside the tracked ranges preserves the frame. -/
theorem fp_set (l : List Nat) (k v : Nat) (hk : k ≤ 8 ∨ (520 ≤ k ∧ k ≤ 539)) :
    framePreserved l (l.set k v) := by
  refine ⟨List.length_set l k v, fun i hi1 hi2 => ?_⟩
  exact List.getElem?_set_ne (by omega)

/-- Replacing a short slice that starts at 520 and ends by 540 preserves the
frame of a buffer of at least 540 bytes. -/
theorem fp_slice (l : List Nat) (a : Nat) (vals : List Nat)
    (ha : 520 ≤ a) (hb : a + vals.length ≤ 540) (hl : 540 ≤ l.length) :
    framePreserved l (listSetSlice l a vals) := by
  have hta : (l.take a).length = a := by
    rw [List.length_take]; omega
  constructor
  · simp only [listSetSlice, List.length_append, hta, List.length_drop]
    omega
  · intro i hi1 hi2
    have hlen2 : (List.take a l ++ vals).length = a + vals.length := by
      simp [List.length_append, hta]
    rcases Nat.lt_or_ge i a with hlt | hge
    · rw [listSetSlice, List.getElem?_append, if_pos (by rw [hlen2]; omega),
        List.getElem?_append, if_pos (by rw [hta]; omega), List.getElem?_take, if_pos hlt]
    · have hge2 : a + vals.length ≤ i := by omega
      rw [listSetSlice, List.getElem?_append, if_neg (by rw [hlen2]; omega), hlen2,
        List.getElem?_drop]
      congr 1
      omega

/-- The conditional writes of fix_bin_file touch only bytes 0..8 and 520..539
of a buffer of at least 540 bytes whose plan carries a short password. -/
theorem applyBinWrites_frame (data : List Nat) (pages : Pages) (fl : Flags)
    (pl : RepairPlan) (hlen : 540 ≤ data.length) (hpwd : pl.correctPwd.length ≤ 8) :
    framePreserved data (applyBinWrites data pages fl pl) := by
  unfold applyBinWrites
  simp only []
  have s0 : framePreserved data
      (if fl.fix_uid then
        ((data.set 0 (pl.uid.getD 0 0)).set 1 (pl.uid.getD 1 0)).set 2 (pl.uid.getD 2 0)
      else data) := by
    split
    · exact fp_trans (fp_trans (fp_set _ 0 _ (by omega)) (fp_set _ 1 _ (by omega)))
        (fp_set _ 2 _ (by omega))
    · exact fp_refl _
  generalize hA : (if fl.fix_uid then
      ((data.set 0 (pl.uid.getD 0 0)).set 1 (pl.uid.getD 1 0)).set 2 (pl.uid.getD 2 0)
    else data) = A at s0 ⊢
  have s1 : framePreserved data (if fl.fix_bcc then A.set 3 pl.correctBcc0 else A) := by
    split
    · exact fp_trans s0 (fp_set _ 3 _ (by omega))
    · exact s0
  generalize hB : (if fl.fix_bcc then A.set 3 pl.correctBcc0 else A) = B at s1 ⊢
  have s2 : framePreserved data
      (if fl.fix_uid then
        (((B.set 4 (pl.uid.getD 3 0)).set 5 (pl.uid.getD 4 0)).set 6
          (pl.uid.getD 5 0)).set 7 (pl.uid.getD 6 0)
      else B) := by
    split
    · exact fp_trans s1 (fp_trans (fp_trans (fp_trans (fp_set _ 4 _ (by omega))
        (fp_set _ 5 _ (by omega))) (fp_set _ 6 _ (by omega))) (fp_set _ 7 _ (by omega)))
    · exact s1
  generalize hC : (if fl.fix_uid then
      (((B.set 4 (pl.uid.getD 3 0)).set 5 (pl.uid.getD 4 0)).set 6
        (pl.uid.getD 5 0)).set 7 (pl.uid.getD 6 0)
    else B) = C at s2 ⊢
  have s3 : framePreserved data
      (if fl.fix_bcc && pagesHas pages 2 then C.set 8 pl.correctBcc1 else C) := by
    split
    · exact fp_trans s2 (fp_set _ 8 _ (by omega))
    · exact s2
  generalize hD : (if fl.fix_bcc && pagesHas pages 2 then C.set 8 pl.correctBcc1 else C)
    = D at s3 ⊢
  have s4 : framePreserved data
      (if fl.fix_dlb && pagesHas pages 130 then listSetSlice D 520 expected_dlb else D) := by
    split
    · exact fp_trans s3 (fp_slice _ 520 _ (by omega) (by simp [expected_dlb])
        (by rw [s3.1]; omega))
    · exact s3
  generalize hE : (if fl.fix_dlb && pagesHas pages 130 then listSetSlice D 520 expected_dlb
    else D) = E at s4 ⊢
  have s5 : framePreserved data
      (if fl.fix_cfg && pagesHas pages 131 then listSetSlice E 524 expected_cfg0 else E) := by
    split
    · exact fp_trans s4 (fp_slice _ 524 _ (by omega) (by simp [expected_cfg0])
        (by rw [s4.1]; omega))
    · exact s4
  generalize hF : (if fl.fix_cfg && pagesHas pages 131 then listSetSlice E 524 expected_cfg0
    else E) = F at s5 ⊢
  have s6 : framePreserved data
      (if fl.fix_cfg && pagesHas pages 132 then listSetSlice F 528 expected_cfg1 else F) := by
    split
    · exact fp_trans s5 (fp_slice _ 528 _ (by omega) (by simp [expected_cfg1])
        (by rw [s5.1]; omega))
    · exact s5
  generalize hG : (if fl.fix_cfg && pagesHas pages 132 then listSetSlice F 528 expected_cfg1
    else F) = G at s6 ⊢
  have s7 : framePreserved data
      (if fl.fix_password && pagesHas pages 133 then listSetSlice G 532 pl.correctPwd
      else G) := by
    split
    · exact fp_trans s6 (fp_slice _ 532 _ (by omega) (by omega) (by rw [s6.1]; omega))
    · exact s6
  generalize hH : (if fl.fix_password && pagesHas pages 133 then
      listSetSlice G 532 pl.correctPwd else G) = H at s7 ⊢
  split
  · exact fp_trans s7 (fp_slice _ 536 _ (by omega) (by simp [expected_pack])
      (by rw [s7.1]; omega))
  · exact s7

/-- A successful binary decode returns the buffer itself and certifies the
540-byte minimum. -/
theorem extract_pages_from_bin_some (d : List Nat) (pages : Pages) (orig : List Nat)
    (h : extract_pages_from_bin d = some (pages, orig)) :
    orig = d ∧ 540 ≤ d.length := by
  unfold extract_pages_from_bin at h
  split at h
  · exact Option.noConfusion h
  · cases h
    exact ⟨rfl, by omega⟩

/-- The password derivation always returns 4 bytes when it succeeds. -/
theorem calculate_password_length (uid pw : List Nat)
    (h : calculate_password_from_uid uid = some pw) : pw.length = 4 := by
  unfold calculate_password_from_uid at h
  split at h
  · exact Option.noConfusion h
  · cases h; rfl

/-- The plan of the binary repairer always carries a 4-byte password. -/
theorem binPlan_pwd_length (pages : Pages) (fl : Flags) (rnd : Nat) (pl : RepairPlan)
    (h : binPlan pages fl rnd = some pl) : pl.correctPwd.length = 4 := by
  unfold binPlan at h
  repeat' first
    | exact Option.noConfusion h
    | (cases h; exact calculate_password_length _ _ (by assumption))
    | split at h
    | (simp only [] at h)

/-- C7: whenever the binary repairer writes, the output buffer has the same
length as the input and agrees with it at every offset outside 0..8 (pages
0 through 2) and 520..539 (pages 130 through 134); in particular all of pages
3 through 129 and any trailing bytes are unchanged. -/
theorem C7_bin_frame (data : List Nat) (fl : Flags) (rnd : Nat)
    (res : BinFixRes) (nd : List Nat)
    (h : fix_bin_file data fl rnd = some res) (hnd : res.newData = some nd) :
    nd.length = data.length ∧
    ∀ i, ¬ i ≤ 8 → ¬ (520 ≤ i ∧ i ≤ 539) → nd[i]? = data[i]? := by
  unfold fix_bin_file at h
  rcases hext : extract_pages_from_bin data with _ | ⟨pages, orig⟩ <;> rw [hext] at h
  · cases h; exact Option.noConfusion hnd
  · obtain ⟨rfl, hlen⟩ := extract_pages_from_bin_some data pages orig hext
    simp only [] at h
    split at h
    · cases h; exact Option.noConfusion hnd
    · split at h
      · cases h; exact Option.noConfusion hnd
      · rcases hpl : binPlan pages fl rnd with _ | pl <;> rw [hpl] at h
        · exact Option.noConfusion h
        · simp only [] at h
          split at h
          · cases h; exact Option.noConfusion hnd
          · cases h
            simp only [Option.some.injEq] at hnd
            subst hnd
            have hfp := applyBinWrites_frame orig pages fl pl hlen
              (by rw [binPlan_pwd_length pages fl rnd pl hpl]; omega)
            exact ⟨hfp.1, hfp.2⟩

/-- Concrete 540-byte buffer with a wrong PACK, used by the C7 witness. -/
def c7bin : List Nat :=
  [0x04, 0xAB, 0x73, 0x54, 0x54, 0xB8, 0xB6, 0x0F, 0x55, 0, 0, 0] ++
  List.replicate 508 0 ++
  [0x01, 0x00, 0x0F, 0xBF] ++ [0x00, 0x00, 0x00, 0x04] ++ [0x5F, 0x00, 0x00, 0x00] ++
  [0x55, 0x9E, 0x48, 0xE2] ++ [0x11, 0x22, 0x33, 0x44]

/-- Default result used to name concrete binary runs. -/
def defaultBinFixRes : BinFixRes := ⟨false, "", none, none, false⟩

/-- Witness for C7 on a concrete repair run: length preserved and byte 100
(inside the opaque pages 3..129) untouched. -/
theorem C7_bin_frame_witness :
    ((((fix_bin_file c7bin allFlags 0).getD defaultBinFixRes).newData.getD []).length =
      c7bin.length) ∧
    (((fix_bin_file c7bin allFlags 0).getD defaultBinFixRes).newData.getD [])[100]? =
      c7bin[100]? := by
  have h := C7_bin_frame c7bin allFlags 0
    ((fix_bin_file c7bin allFlags 0).getD defaultBinFixRes)
    (((fix_bin_file c7bin allFlags 0).getD defaultBinFixRes).newData.getD [])
    (by decide) (by decide)
  exact ⟨h.1, h.2 100 (by decide) (by decide)⟩

/-- C6: when the repair planner schedules no change, both repairers return
success with the message No changes needed, perform no backup, and write
nothing: the file content is left untouched. -/
theorem C6_no_change_no_write :
    (∀ (lines : List String) (fl : Flags) (rnd : Nat) (pl : RepairPlan),
      pagesEmpty (extract_pages_from_nfc lines).1 = false →
      (pagesHas (extract_pages_from_nfc lines).1 0 &&
        pagesHas (extract_pages_from_nfc lines).1 1) = true →
      nfcPlan (extract_pages_from_nfc lines).1 (extract_pages_from_nfc lines).2.1 fl rnd =
        some pl →
      pl.changes = [] →
      fix_nfc_file lines fl rnd = some ⟨true, "No changes needed", none, none, false⟩) ∧
    (∀ (data : List Nat) (fl : Flags) (rnd : Nat) (pages : Pages) (orig : List Nat)
        (pl : RepairPlan),
      extract_pages_from_bin data = some (pages, orig) →
      pagesEmpty pages = false →
      (pagesHas pages 0 && pagesHas pages 1) = true →
      binPlan pages fl rnd = some pl →
      pl.changes = [] →
      fix_bin_file data fl rnd = some ⟨true, "No changes needed", none, none, false⟩) := by
  constructor
  · intro lines fl rnd pl hne hh01 hplan hch
    unfold fix_nfc_file
    simp only []
    rw [hne, hh01, hplan]
    simp [hch]
  · intro data fl rnd pages orig pl hext hne hh01 hplan hch
    unfold fix_bin_file
    rw [hext]
    simp only []
    rw [hne, hh01, hplan]
    simp [hch]

/-- Fully valid 540-byte buffer used by the C6 witness. -/
def c6bin : List Nat :=
  [0x04, 0xAB, 0x73, 0x54, 0x54, 0xB8, 0xB6, 0x0F, 0x55, 0, 0, 0] ++
  List.replicate 508 0 ++
  [0x01, 0x00, 0x0F, 0xBF] ++ [0x00, 0x00, 0x00, 0x04] ++ [0x5F, 0x00, 0x00, 0x00] ++
  [0x55, 0x9E, 0x48, 0xE2] ++ [0x80, 0x80, 0x00, 0x00]

/-- Witness for C6: a text file whose two pages are already consistent, and a
fully valid binary buffer; both runs report No changes needed with no backup
and no write. -/
theorem C6_no_change_no_write_witness :
    fix_nfc_file ["Page 0: 04 AB 73 54", "Page 1: 54 B8 B6 0F"] allFlags 0 =
      some ⟨true, "No changes needed", none, none, false⟩ ∧
    fix_bin_file c6bin allFlags 0 =
      some ⟨true, "No changes needed", none, none, false⟩ := by
  constructor
  · exact C6_no_change_no_write.1 ["Page 0: 04 AB 73 54", "Page 1: 54 B8 B6 0F"] allFlags 0
      ((nfcPlan (extract_pages_from_nfc ["Page 0: 04 AB 73 54", "Page 1: 54 B8 B6 0F"]).1
        (extract_pages_from_nfc ["Page 0: 04 AB 73 54", "Page 1: 54 B8 B6 0F"]).2.1
        allFlags 0).getD ⟨[], 0, 0, [], [], allFalseDetails⟩)
      (by decide) (by decide) (by decide) (by decide)
  · exact C6_no_change_no_write.2 c6bin allFlags 0
      ((extract_pages_from_bin c6bin).getD ([], [])).1
      ((extract_pages_from_bin c6bin).getD ([], [])).2
      ((binPlan ((extract_pages_from_bin c6bin).getD ([], [])).1 allFlags 0).getD
        ⟨[], 0, 0, [], [], allFalseDetails⟩)
      (by decide) (by decide) (by decide) (by decide) (by decide)

/-! ## The directory scan driver -/

/-- Dry-run processing of one text file by scan_and_fix_directory: decode the
pages (the decoder catches its own errors) and validate. none marks an
exception escaping the loop body, which the source does not catch. -/
def processNfcDry (lines : List String) : Option CheckResult :=
  let ex := extract_pages_from_nfc lines
  check_uid_comprehensive ex.1 ex.2.1

/-- The dry-run scan over a batch of text files: the source's for-loop appends
one record per file and has no exception handler, so the first escaped
exception aborts the whole batch with every record lost. -/
def scanDryRunNfc (files : List (List String)) : Option (List CheckResult) :=
  traverseOpt processNfcDry files

/-- A well-formed two-page file. -/
def c4good : List String := ["Page 0: 04 AB 73 54", "Page 1: 54 B8 B6 0F"]

/-- A file whose page 0 has odd-length hex data: bytes.fromhex raises
ValueError inside check_uid_comprehensive, outside any handler. -/
def c4bad : List String := ["Page 0: 04 AB 73 5", "Page 1: 54 B8 B6 0F"]

/-- Counterexample to C4: a batch holding a good file and a file with
odd-length page hex produces no per-file records at all - the validator's
ValueError aborts the batch - even though each piece of the good file is
processable on its own. -/
theorem C4_counterexample :
    scanDryRunNfc [c4good, c4bad] = none ∧
    processNfcDry c4good ≠ none ∧
    processNfcDry c4bad = none := by
  exact ⟨rfl, by decide, rfl⟩

/-- C4 as amended: file-reading and parsing errors are contained by the
decoder, and a batch in which no file makes the validator raise (no malformed
page hex reaches bytes.fromhex) yields one status record per file; but a
hex-decoding error inside validation, as in the counterexample, aborts the
whole batch. -/
theorem C4_batch_all_processed (files : List (List String))
    (h : ∀ f ∈ files, processNfcDry f ≠ none) :
    ∃ recs, scanDryRunNfc files = some recs ∧ recs.length = files.length := by
  induction files with
  | nil => exact ⟨[], rfl, rfl⟩
  | cons f fs ih =>
    obtain ⟨recs, hs, hl⟩ := ih (fun g hg => h g (List.mem_cons_of_mem f hg))
    have hf := h f (List.mem_cons_self f fs)
    rcases hpf : processNfcDry f with _ | r
    · exact absurd hpf hf
    · refine ⟨r :: recs, ?_, by simp [hl]⟩
      unfold scanDryRunNfc traverseOpt
      rw [hpf]
      unfold scanDryRunNfc at hs
      rw [hs]

/-- Witness for the amended C4 on a one-file batch. -/
theorem C4_batch_all_processed_witness :
    scanDryRunNfc [c4good] ≠ none ∧
    ((scanDryRunNfc [c4good]).getD []).length = 1 := by
  obtain ⟨recs, hs, hl⟩ := C4_batch_all_processed [c4good]
    (by intro f hf; rw [List.mem_singleton] at hf; subst hf; decide)
  rw [hs]
  exact ⟨by simp, by simpa using hl⟩

/-! ## Pointwise and slice lemmas for the repair-completeness proof -/

/-- getD through set, as one conditional equation. -/
theorem getD_set (l : List Nat) (i j v d : Nat) :
    (l.set i v).getD j d = if i = j ∧ i < l.length then v else l.getD j d := by
  split
  · rename_i hc
    obtain ⟨rfl, hlt⟩ := hc
    simp [List.getD, List.getElem?_set_self hlt]
  · rename_i hc
    rcases eq_or_ne i j with rfl | hne
    · have hge : l.length ≤ i := by
        rcases Nat.lt_or_ge i l.length with h | h
        · exact absurd ⟨rfl, h⟩ hc
        · exact h
      rw [List.set_eq_of_length_le hge]
    · simp [List.getD, List.getElem?_set_ne hne]

/-- An in-bounds slice replacement preserves the length. -/
theorem length_listSetSlice (l : List Nat) (a : Nat) (vals : List Nat)
    (h : a + vals.length ≤ l.length) :
    (listSetSlice l a vals).length = l.length := by
  simp only [listSetSlice, List.length_append, List.length_take, List.length_drop]
  omega

/-- Entries below the replaced window are untouched. -/
theorem getElem?_listSetSlice_lt (l : List Nat) (a : Nat) (vals : List Nat) (i : Nat)
    (hi : i < a) (h : a + vals.length ≤ l.length) :
    (listSetSlice l a vals)[i]? = l[i]? := by
  have hta : (l.take a).length = a := by rw [List.length_take]; omega
  rw [listSetSlice, List.getElem?_append, if_pos (by simp [List.length_append, hta]; omega),
    List.getElem?_append, if_pos (by rw [hta]; omega), List.getElem?_take, if_pos hi]

/-- A slice that ends at or below the replaced window is untouched. -/
theorem pySlice_listSetSlice_below (l : List Nat) (a c e : Nat) (vals : List Nat)
    (hce : e ≤ a) (h : a + vals.length ≤ l.length) :
    pySlice (listSetSlice l a vals) c e = pySlice l c e := by
  apply List.ext_getElem?
  intro i
  simp only [pySlice, List.getElem?_take]
  split
  · rename_i hie
    rw [List.getElem?_drop, List.getElem?_drop]
    exact getElem?_listSetSlice_lt l a vals (c + i) (by omega) h
  · rfl

/-- A slice that lies below a set index is untouched. -/
theorem pySlice_set_above (l : List Nat) (k v c e : Nat) (hk : e ≤ k) :
    pySlice (l.set k v) c e = pySlice l c e := by
  apply List.ext_getElem?
  intro i
  simp only [pySlice, List.getElem?_take]
  split
  · rename_i hie
    rw [List.getElem?_drop, List.getElem?_drop]
    exact List.getElem?_set_ne (by omega)
  · rfl

/-- Reading back exactly the replaced window yields the written values. -/
theorem pySlice_listSetSlice_self (l : List Nat) (a : Nat) (vals : List Nat)
    (h : a + vals.length ≤ l.length) :
    pySlice (listSetSlice l a vals) a (a + vals.length) = vals := by
  have hta : (l.take a).length = a := by rw [List.length_take]; omega
  rw [pySlice, listSetSlice, List.append_assoc,
    show a + vals.length - a = vals.length from by omega,
    List.drop_left' hta, List.take_left' rfl]

/-- A 4-byte in-bounds slice, written out pointwise. -/
theorem pySlice4_eq (d : List Nat) (a : Nat) (h : a + 4 ≤ d.length) :
    pySlice d a (a + 4) =
      [d.getD a 0, d.getD (a + 1) 0, d.getD (a + 2) 0, d.getD (a + 3) 0] := by
  have h0 : a < d.length := by omega
  have h1 : a + 1 < d.length := by omega
  have h2 : a + 2 < d.length := by omega
  have h3 : a + 3 < d.length := by omega
  rw [pySlice, show a + 4 - a = 4 from by omega,
    List.drop_eq_getElem_cons h0, List.drop_eq_getElem_cons h1,
    List.drop_eq_getElem_cons h2, List.drop_eq_getElem_cons h3]
  simp [List.take, List.getD, List.getElem?_eq_getElem, h0, h1, h2, h3]

/-- Every entry of an in-bounds slice is an entry of the buffer. -/
theorem mem_of_mem_pySlice (d : List Nat) (a b x : Nat) (h : x ∈ pySlice d a b) :
    x ∈ d :=
  List.mem_of_mem_drop (List.mem_of_mem_take h)

/-- On a buffer of at least 540 bytes the binary decoder returns an explicit
eight-entry page table of hex-rendered slices, with the buffer alongside. -/
theorem extract_pages_from_bin_eq (d : List Nat) (h : 540 ≤ d.length) :
    extract_pages_from_bin d =
      some ([(0, bytesToHexChars (pySlice d 0 4)),
             (1, bytesToHexChars (pySlice d 4 8)),
             (2, bytesToHexChars (pySlice d 8 12)),
             (130, bytesToHexChars (pySlice d 520 524)),
             (131, bytesToHexChars (pySlice d 524 528)),
             (132, bytesToHexChars (pySlice d 528 532)),
             (133, bytesToHexChars (pySlice d 532 536)),
             (134, bytesToHexChars (pySlice d 536 540))], d) := by
  unfold extract_pages_from_bin
  rw [if_neg (by omega)]
  simp only [List.foldl]
  rw [if_pos (by omega), if_pos (by omega), if_pos (by omega), if_pos (by omega),
    if_pos (by omega), if_pos (by omega), if_pos (by omega), if_pos (by omega)]
  simp [pagesSet]

/-- Decode a binary buffer and report the validator's overall verdict. -/
def checkOfBin (d : List Nat) : Option Bool :=
  match extract_pages_from_bin d with
  | none => none
  | some (pages, _) => (check_uid_comprehensive pages none).map (fun r => r.allValid)

/-- A 540-byte buffer whose tracked pages all carry the derived values is
judged allValid by the validator. The seven u parameters are the UID bytes
stored in pages 0 and 1, and the slice hypotheses say each tracked field
holds exactly its derived value. -/
theorem checkOfBin_valid (nd : List Nat) (u0 u1 u2 u3 u4 u5 u6 p2b p2c p2d : Nat)
    (hlen : 540 ≤ nd.length) (hb : ∀ b ∈ nd, b < 256)
    (hsn3 : u3 ≠ 0x88)
    (hp0 : pySlice nd 0 4 = [u0, u1, u2, 0x88 ^^^ u0 ^^^ u1 ^^^ u2])
    (hp1 : pySlice nd 4 8 = [u3, u4, u5, u6])
    (hp2 : pySlice nd 8 12 = [u3 ^^^ u4 ^^^ u5 ^^^ u6, p2b, p2c, p2d])
    (hdlb : pySlice nd 520 524 = expected_dlb)
    (hcfg0 : pySlice nd 524 528 = expected_cfg0)
    (hcfg1 : pySlice nd 528 532 = expected_cfg1)
    (hpwd : pySlice nd 532 536 =
      [u1 ^^^ u3 ^^^ 0xAA, u2 ^^^ u4 ^^^ 0x55, u3 ^^^ u5 ^^^ 0xAA, u4 ^^^ u6 ^^^ 0x55])
    (hpk : pySlice nd 536 540 = expected_pack) :
    checkOfBin nd = some true := by
  have hbs : ∀ a b : Nat, ∀ x ∈ pySlice nd a b, x < 256 :=
    fun a b x hx => hb x (mem_of_mem_pySlice nd a b x hx)
  have hfh : ∀ a b : Nat, fromhex (bytesToHexChars (pySlice nd a b)) = some (pySlice nd a b) :=
    fun a b => fromhex_bytesToHexChars _ (hbs a b)
  have hf0 := hfh 0 4; rw [hp0] at hf0
  have hf1 := hfh 4 8; rw [hp1] at hf1
  have hf2 := hfh 8 12; rw [hp2] at hf2
  have hf130 := hfh 520 524; rw [hdlb] at hf130
  have hf131 := hfh 524 528; rw [hcfg0] at hf131
  have hf132 := hfh 528 532; rw [hcfg1] at hf132
  have hf133 := hfh 532 536; rw [hpwd] at hf133
  have hf134 := hfh 536 540; rw [hpk] at hf134
  unfold checkOfBin
  rw [extract_pages_from_bin_eq nd hlen]
  simp only [hp0, hp1, hp2, hdlb, hcfg0, hcfg1, hpwd, hpk]
  unfold check_uid_comprehensive
  rw [show pagesEmpty [(0, bytesToHexChars [u0, u1, u2, 0x88 ^^^ u0 ^^^ u1 ^^^ u2]),
        (1, bytesToHexChars [u3, u4, u5, u6]),
        (2, bytesToHexChars [u3 ^^^ u4 ^^^ u5 ^^^ u6, p2b, p2c, p2d]),
        (130, bytesToHexChars expected_dlb), (131, bytesToHexChars expected_cfg0),
        (132, bytesToHexChars expected_cfg1),
        (133, bytesToHexChars [u1 ^^^ u3 ^^^ 0xAA, u2 ^^^ u4 ^^^ 0x55, u3 ^^^ u5 ^^^ 0xAA,
          u4 ^^^ u6 ^^^ 0x55]),
        (134, bytesToHexChars expected_pack)] = false from rfl]
  simp only [pagesHas, pagesGet, List.find?, Option.isSome, Option.map]
  simp only [bcc1Check, pwPackCheck, validate_dlb_and_cfg, pagesHas, pagesGet, List.find?,
    pagesEmpty]
  simp [hf0, hf1, hf2, hf130, hf131, hf132, hf133, hf134,
    calculate_password_from_uid, hsn3, beq_self_eq_true,
    (by decide : (4 : Nat) ≤ expected_pack.length),
    (by decide : (List.take 4 expected_pack == expected_pack) = true),
    (by decide : ¬ expected_dlb.length < 4),
    (by decide : ¬ expected_cfg0.length < 4),
    (by decide : ¬ expected_cfg1.length < 4),
    (by decide : (List.take 4 expected_dlb == expected_dlb) = true),
    (by decide : (List.take 4 expected_cfg0 == expected_cfg0) = true),
    (by decide : (List.take 4 expected_cfg1 == expected_cfg1) = true)]

theorem fix_uid_length (rnd : Nat) (u : List Nat) :
    (fix_uid_if_sn3_is_88 rnd u).1.length = u.length := by
  unfold fix_uid_if_sn3_is_88
  split <;> simp

def effectiveBinUid (d : List Nat) (rnd : Nat) : List Nat :=
  (fix_uid_if_sn3_is_88 rnd
    [d.getD 0 0, d.getD 1 0, d.getD 2 0, d.getD 4 0, d.getD 5 0, d.getD 6 0, d.getD 7 0]).1

theorem binPlan_eval (d : List Nat) (rnd : Nat) (hlen : 540 ≤ d.length)
    (hb : ∀ b ∈ d, b < 256) :
    ∃ ch is,
      binPlan [(0, bytesToHexChars (pySlice d 0 4)), (1, bytesToHexChars (pySlice d 4 8)),
               (2, bytesToHexChars (pySlice d 8 12)),
               (130, bytesToHexChars (pySlice d 520 524)),
               (131, bytesToHexChars (pySlice d 524 528)),
               (132, bytesToHexChars (pySlice d 528 532)),
               (133, bytesToHexChars (pySlice d 532 536)),
               (134, bytesToHexChars (pySlice d 536 540))] allFlags rnd =
      some ⟨effectiveBinUid d rnd,
            0x88 ^^^ (effectiveBinUid d rnd).getD 0 0 ^^^ (effectiveBinUid d rnd).getD 1 0 ^^^
              (effectiveBinUid d rnd).getD 2 0,
            (effectiveBinUid d rnd).getD 3 0 ^^^ (effectiveBinUid d rnd).getD 4 0 ^^^
              (effectiveBinUid d rnd).getD 5 0 ^^^ (effectiveBinUid d rnd).getD 6 0,
            [(effectiveBinUid d rnd).getD 1 0 ^^^ (effectiveBinUid d rnd).getD 3 0 ^^^ 0xAA,
             (effectiveBinUid d rnd).getD 2 0 ^^^ (effectiveBinUid d rnd).getD 4 0 ^^^ 0x55,
             (effectiveBinUid d rnd).getD 3 0 ^^^ (effectiveBinUid d rnd).getD 5 0 ^^^ 0xAA,
             (effectiveBinUid d rnd).getD 4 0 ^^^ (effectiveBinUid d rnd).getD 6 0 ^^^ 0x55],
            ch, is⟩ := by
  have hbs : ∀ a b : Nat, ∀ x ∈ pySlice d a b, x < 256 :=
    fun a b x hx => hb x (mem_of_mem_pySlice d a b x hx)
  have hs0 : pySlice d 0 4 = [d.getD 0 0, d.getD 1 0, d.getD 2 0, d.getD 3 0] := by
    simpa using pySlice4_eq d 0 (by omega)
  have hs1 : pySlice d 4 8 = [d.getD 4 0, d.getD 5 0, d.getD 6 0, d.getD 7 0] := by
    simpa using pySlice4_eq d 4 (by omega)
  have hs2 : pySlice d 8 12 = [d.getD 8 0, d.getD 9 0, d.getD 10 0, d.getD 11 0] := by
    simpa using pySlice4_eq d 8 (by omega)
  have hfL0 : fromhex (bytesToHexChars [d.getD 0 0, d.getD 1 0, d.getD 2 0, d.getD 3 0]) =
      some [d.getD 0 0, d.getD 1 0, d.getD 2 0, d.getD 3 0] := by
    rw [← hs0]; exact fromhex_bytesToHexChars _ (hbs 0 4)
  have hfL1 : fromhex (bytesToHexChars [d.getD 4 0, d.getD 5 0, d.getD 6 0, d.getD 7 0]) =
      some [d.getD 4 0, d.getD 5 0, d.getD 6 0, d.getD 7 0] := by
    rw [← hs1]; exact fromhex_bytesToHexChars _ (hbs 4 8)
  have hfL2 : fromhex (bytesToHexChars [d.getD 8 0, d.getD 9 0, d.getD 10 0, d.getD 11 0]) =
      some [d.getD 8 0, d.getD 9 0, d.getD 10 0, d.getD 11 0] := by
    rw [← hs2]; exact fromhex_bytesToHexChars _ (hbs 8 12)
  have hf130 : fromhex (bytesToHexChars (pySlice d 520 524)) = some (pySlice d 520 524) :=
    fromhex_bytesToHexChars _ (hbs 520 524)
  have hf131 : fromhex (bytesToHexChars (pySlice d 524 528)) = some (pySlice d 524 528) :=
    fromhex_bytesToHexChars _ (hbs 524 528)
  have hf132 : fromhex (bytesToHexChars (pySlice d 528 532)) = some (pySlice d 528 532) :=
    fromhex_bytesToHexChars _ (hbs 528 532)
  have hf133 : fromhex (bytesToHexChars (pySlice d 532 536)) = some (pySlice d 532 536) :=
    fromhex_bytesToHexChars _ (hbs 532 536)
  have hf134 : fromhex (bytesToHexChars (pySlice d 536 540)) = some (pySlice d 536 540) :=
    fromhex_bytesToHexChars _ (hbs 536 540)
  have hlen7 : (fix_uid_if_sn3_is_88 rnd [d.getD 0 0, d.getD 1 0, d.getD 2 0, d.getD 4 0, d.getD 5 0, d.getD 6 0, d.getD 7 0]).1.length = 7 := by
    rw [fix_uid_length]; rfl
  have hcp : calculate_password_from_uid (fix_uid_if_sn3_is_88 rnd [d.getD 0 0, d.getD 1 0, d.getD 2 0, d.getD 4 0, d.getD 5 0, d.getD 6 0, d.getD 7 0]).1 =
      some [(fix_uid_if_sn3_is_88 rnd [d.getD 0 0, d.getD 1 0, d.getD 2 0, d.getD 4 0, d.getD 5 0, d.getD 6 0, d.getD 7 0]).1.getD 1 0 ^^^ (fix_uid_if_sn3_is_88 rnd [d.getD 0 0, d.getD 1 0, d.getD 2 0, d.getD 4 0, d.getD 5 0, d.getD 6 0, d.getD 7 0]).1.getD 3 0 ^^^ 0xAA,
            (fix_uid_if_sn3_is_88 rnd [d.getD 0 0, d.getD 1 0, d.getD 2 0, d.getD 4 0, d.getD 5 0, d.getD 6 0, d.getD 7 0]).1.getD 2 0 ^^^ (fix_uid_if_sn3_is_88 rnd [d.getD 0 0, d.getD 1 0, d.getD 2 0, d.getD 4 0, d.getD 5 0, d.getD 6 0, d.getD 7 0]).1.getD 4 0 ^^^ 0x55,
            (fix_uid_if_sn3_is_88 rnd [d.getD 0 0, d.getD 1 0, d.getD 2 0, d.getD 4 0, d.getD 5 0, d.getD 6 0, d.getD 7 0]).1.getD 3 0 ^^^ (fix_uid_if_sn3_is_88 rnd [d.getD 0 0, d.getD 1 0, d.getD 2 0, d.getD 4 0, d.getD 5 0, d.getD 6 0, d.getD 7 0]).1.getD 5 0 ^^^ 0xAA,
            (fix_uid_if_sn3_is_88 rnd [d.getD 0 0, d.getD 1 0, d.getD 2 0, d.getD 4 0, d.getD 5 0, d.getD 6 0, d.getD 7 0]).1.getD 4 0 ^^^ (fix_uid_if_sn3_is_88 rnd [d.getD 0 0, d.getD 1 0, d.getD 2 0, d.getD 4 0, d.getD 5 0, d.getD 6 0, d.getD 7 0]).1.getD 6 0 ^^^ 0x55] := by
    rw [calculate_password_from_uid, if_neg (by rw [fix_uid_length]; simp)]
  unfold binPlan
  simp only [pagesGet, List.find?, Option.map_some', hs0, hs1, hs2,
    (show ((0 : Nat) == 0) = true from rfl),
    (show ((0 : Nat) == 1) = false from rfl),
    (show ((1 : Nat) == 1) = true from rfl),
    (show ((0 : Nat) == 2) = false from rfl),
    (show ((1 : Nat) == 2) = false from rfl),
    (show ((2 : Nat) == 2) = true from rfl),
    (show ((0 : Nat) == 130) = false from rfl),
    (show ((1 : Nat) == 130) = false from rfl),
    (show ((2 : Nat) == 130) = false from rfl),
    (show ((130 : Nat) == 130) = true from rfl),
    (show ((0 : Nat) == 131) = false from rfl),
    (show ((1 : Nat) == 131) = false from rfl),
    (show ((2 : Nat) == 131) = false from rfl),
    (show ((130 : Nat) == 131) = false from rfl),
    (show ((131 : Nat) == 131) = true from rfl),
    (show ((0 : Nat) == 132) = false from rfl),
    (show ((1 : Nat) == 132) = false from rfl),
    (show ((2 : Nat) == 132) = false from rfl),
    (show ((130 : Nat) == 132) = false from rfl),
    (show ((131 : Nat) == 132) = false from rfl),
    (show ((132 : Nat) == 132) = true from rfl),
    (show ((0 : Nat) == 133) = false from rfl),
    (show ((1 : Nat) == 133) = false from rfl),
    (show ((2 : Nat) == 133) = false from rfl),
    (show ((130 : Nat) == 133) = false from rfl),
    (show ((131 : Nat) == 133) = false from rfl),
    (show ((132 : Nat) == 133) = false from rfl),
    (show ((133 : Nat) == 133) = true from rfl),
    (show ((0 : Nat) == 134) = false from rfl),
    (show ((1 : Nat) == 134) = false from rfl),
    (show ((2 : Nat) == 134) = false from rfl),
    (show ((130 : Nat) == 134) = false from rfl),
    (show ((131 : Nat) == 134) = false from rfl),
    (show ((132 : Nat) == 134) = false from rfl),
    (show ((133 : Nat) == 134) = false from rfl),
    (show ((134 : Nat) == 134) = true from rfl),
    show allFlags.fix_uid = true from rfl, show allFlags.fix_bcc = true from rfl,
    show allFlags.fix_password = true from rfl, show allFlags.fix_pack = true from rfl,
    show allFlags.fix_dlb = true from rfl, show allFlags.fix_cfg = true from rfl,
    hfL0, hfL1, hfL2, hf130, hf131, hf132, hf133, hf134,
    List.take_succ_cons, List.take_zero, List.cons_append, List.nil_append,
    if_true, hlen7, ne_eq, not_true, Bool.false_eq_true, if_false,
    List.getElem?_cons_zero, List.getElem?_cons_succ,
    List.getD_cons_zero, List.getD_cons_succ, pageConstStep, hcp]
  exact ⟨_, _, rfl⟩


theorem applyBinWrites_slices (data : List Nat) (pages : Pages) (pl : RepairPlan)
    (hlen : 540 ≤ data.length)
    (h2 : pagesHas pages 2 = true) (h130 : pagesHas pages 130 = true)
    (h131 : pagesHas pages 131 = true) (h132 : pagesHas pages 132 = true)
    (h133 : pagesHas pages 133 = true) (h134 : pagesHas pages 134 = true)
    (hp : pl.correctPwd.length = 4) :
    pySlice (applyBinWrites data pages allFlags pl) 0 4 =
      [pl.uid.getD 0 0, pl.uid.getD 1 0, pl.uid.getD 2 0, pl.correctBcc0] ∧
    pySlice (applyBinWrites data pages allFlags pl) 4 8 =
      [pl.uid.getD 3 0, pl.uid.getD 4 0, pl.uid.getD 5 0, pl.uid.getD 6 0] ∧
    pySlice (applyBinWrites data pages allFlags pl) 8 12 =
      [pl.correctBcc1, data.getD 9 0, data.getD 10 0, data.getD 11 0] ∧
    pySlice (applyBinWrites data pages allFlags pl) 520 524 = expected_dlb ∧
    pySlice (applyBinWrites data pages allFlags pl) 524 528 = expected_cfg0 ∧
    pySlice (applyBinWrites data pages allFlags pl) 528 532 = expected_cfg1 ∧
    pySlice (applyBinWrites data pages allFlags pl) 532 536 = pl.correctPwd ∧
    pySlice (applyBinWrites data pages allFlags pl) 536 540 = expected_pack ∧
    (applyBinWrites data pages allFlags pl).length = data.length := by
  unfold applyBinWrites
  simp only [show allFlags.fix_uid = true from rfl, show allFlags.fix_bcc = true from rfl,
    show allFlags.fix_password = true from rfl, show allFlags.fix_pack = true from rfl,
    show allFlags.fix_dlb = true from rfl, show allFlags.fix_cfg = true from rfl,
    h2, h130, h131, h132, h133, h134, Bool.and_self, if_true]
  set S8 := ((((((((data.set 0 (pl.uid.getD 0 0)).set 1 (pl.uid.getD 1 0)).set 2
    (pl.uid.getD 2 0)).set 3 pl.correctBcc0).set 4 (pl.uid.getD 3 0)).set 5
    (pl.uid.getD 4 0)).set 6 (pl.uid.getD 5 0)).set 7 (pl.uid.getD 6 0)).set 8
    pl.correctBcc1 with hS8
  have hS8len : S8.length = data.length := by
    rw [hS8]; simp [List.length_set]
  set W1 := listSetSlice S8 520 expected_dlb with hW1
  have hW1len : W1.length = data.length := by
    rw [hW1, length_listSetSlice]
    · exact hS8len
    · rw [show expected_dlb.length = 4 from rfl, hS8len]; omega
  set W2 := listSetSlice W1 524 expected_cfg0 with hW2
  have hW2len : W2.length = data.length := by
    rw [hW2, length_listSetSlice]
    · exact hW1len
    · rw [show expected_cfg0.length = 4 from rfl, hW1len]; omega
  set W3 := listSetSlice W2 528 expected_cfg1 with hW3
  have hW3len : W3.length = data.length := by
    rw [hW3, length_listSetSlice]
    · exact hW2len
    · rw [show expected_cfg1.length = 4 from rfl, hW2len]; omega
  set W4 := listSetSlice W3 532 pl.correctPwd with hW4
  have hW4len : W4.length = data.length := by
    rw [hW4, length_listSetSlice]
    · exact hW3len
    · rw [hp, hW3len]; omega
  have hbdlb : 520 + expected_dlb.length ≤ S8.length := by
    rw [show expected_dlb.length = 4 from rfl, hS8len]; omega
  have hbcfg0 : 524 + expected_cfg0.length ≤ W1.length := by
    rw [show expected_cfg0.length = 4 from rfl, hW1len]; omega
  have hbcfg1 : 528 + expected_cfg1.length ≤ W2.length := by
    rw [show expected_cfg1.length = 4 from rfl, hW2len]; omega
  have hbpwd : 532 + pl.correctPwd.length ≤ W3.length := by
    rw [hp, hW3len]; omega
  have hbpack : 536 + expected_pack.length ≤ W4.length := by
    rw [show expected_pack.length = 4 from rfl, hW4len]; omega
  have hlow : ∀ c e : Nat, e ≤ 520 →
      pySlice (listSetSlice W4 536 expected_pack) c e = pySlice S8 c e := by
    intro c e he
    rw [pySlice_listSetSlice_below W4 536 c e expected_pack (by omega) hbpack,
      hW4, pySlice_listSetSlice_below W3 532 c e pl.correctPwd (by omega) hbpwd,
      hW3, pySlice_listSetSlice_below W2 528 c e expected_cfg1 (by omega) hbcfg1,
      hW2, pySlice_listSetSlice_below W1 524 c e expected_cfg0 (by omega) hbcfg0,
      hW1, pySlice_listSetSlice_below S8 520 c e expected_dlb (by omega) hbdlb]
  have hg0 : S8.getD 0 0 = pl.uid.getD 0 0 := by
    rw [hS8]
    simp [getD_set, List.length_set, show 0 < data.length from by omega]
  have hg1 : S8.getD 1 0 = pl.uid.getD 1 0 := by
    rw [hS8]
    simp [getD_set, List.length_set, show 1 < data.length from by omega]
  have hg2 : S8.getD 2 0 = pl.uid.getD 2 0 := by
    rw [hS8]
    simp [getD_set, List.length_set, show 2 < data.length from by omega]
  have hg3 : S8.getD 3 0 = pl.correctBcc0 := by
    rw [hS8]
    simp [getD_set, List.length_set, show 3 < data.length from by omega]
  have hg4 : S8.getD 4 0 = pl.uid.getD 3 0 := by
    rw [hS8]
    simp [getD_set, List.length_set, show 4 < data.length from by omega]
  have hg5 : S8.getD 5 0 = pl.uid.getD 4 0 := by
    rw [hS8]
    simp [getD_set, List.length_set, show 5 < data.length from by omega]
  have hg6 : S8.getD 6 0 = pl.uid.getD 5 0 := by
    rw [hS8]
    simp [getD_set, List.length_set, show 6 < data.length from by omega]
  have hg7 : S8.getD 7 0 = pl.uid.getD 6 0 := by
    rw [hS8]
    simp [getD_set, List.length_set, show 7 < data.length from by omega]
  have hg8 : S8.getD 8 0 = pl.correctBcc1 := by
    rw [hS8]
    simp [getD_set, List.length_set, show 8 < data.length from by omega]
  have hg9 : S8.getD 9 0 = data.getD 9 0 := by
    rw [hS8]; simp [getD_set]
  have hg10 : S8.getD 10 0 = data.getD 10 0 := by
    rw [hS8]; simp [getD_set]
  have hg11 : S8.getD 11 0 = data.getD 11 0 := by
    rw [hS8]; simp [getD_set]
  refine ⟨?_, ?_, ?_, ?_, ?_, ?_, ?_, ?_, ?_⟩
  · rw [hlow 0 4 (by omega)]
    have h4 := pySlice4_eq S8 0 (by rw [hS8len]; omega)
    simp only [Nat.zero_add] at h4
    rw [h4, hg0, hg1, hg2, hg3]
  · rw [hlow 4 8 (by omega)]
    have h4 := pySlice4_eq S8 4 (by rw [hS8len]; omega)
    simp only [Nat.reduceAdd] at h4
    rw [h4, hg4, hg5, hg6, hg7]
  · rw [hlow 8 12 (by omega)]
    have h4 := pySlice4_eq S8 8 (by rw [hS8len]; omega)
    simp only [Nat.reduceAdd] at h4
    rw [h4, hg8, hg9, hg10, hg11]
  · rw [pySlice_listSetSlice_below W4 536 520 524 expected_pack (by omega) hbpack,
      hW4, pySlice_listSetSlice_below W3 532 520 524 pl.correctPwd (by omega) hbpwd,
      hW3, pySlice_listSetSlice_below W2 528 520 524 expected_cfg1 (by omega) hbcfg1,
      hW2, pySlice_listSetSlice_below W1 524 520 524 expected_cfg0 (by omega) hbcfg0,
      hW1]
    have hself := pySlice_listSetSlice_self S8 520 expected_dlb hbdlb
    rw [show (520 : Nat) + expected_dlb.length = 524 from rfl] at hself
    exact hself
  · rw [pySlice_listSetSlice_below W4 536 524 528 expected_pack (by omega) hbpack,
      hW4, pySlice_listSetSlice_below W3 532 524 528 pl.correctPwd (by omega) hbpwd,
      hW3, pySlice_listSetSlice_below W2 528 524 528 expected_cfg1 (by omega) hbcfg1,
      hW2]
    have hself := pySlice_listSetSlice_self W1 524 expected_cfg0 hbcfg0
    rw [show (524 : Nat) + expected_cfg0.length = 528 from rfl] at hself
    exact hself
  · rw [pySlice_listSetSlice_below W4 536 528 532 expected_pack (by omega) hbpack,
      hW4, pySlice_listSetSlice_below W3 532 528 532 pl.correctPwd (by omega) hbpwd,
      hW3]
    have hself := pySlice_listSetSlice_self W2 528 expected_cfg1 hbcfg1
    rw [show (528 : Nat) + expected_cfg1.length = 532 from rfl] at hself
    exact hself
  · rw [pySlice_listSetSlice_below W4 536 532 536 expected_pack (by omega) hbpack,
      hW4]
    have hself := pySlice_listSetSlice_self W3 532 pl.correctPwd hbpwd
    rw [show (532 : Nat) + pl.correctPwd.length = 536 from by rw [hp]] at hself
    exact hself
  · have hself := pySlice_listSetSlice_self W4 536 expected_pack hbpack
    rw [show (536 : Nat) + expected_pack.length = 540 from rfl] at hself
    exact hself
  · rw [length_listSetSlice W4 536 expected_pack hbpack]
    exact hW4len

theorem getD_lt_256 (l : List Nat) (h : ∀ b ∈ l, b < 256) (i : Nat) : l.getD i 0 < 256 := by
  rcases Nat.lt_or_ge i l.length with hi | hi
  · rw [List.getD_eq_getElem l 0 hi]
    exact h _ (List.getElem_mem hi)
  · rw [List.getD_eq_default l 0 hi]
    omega

theorem xor_lt_256 (a b : Nat) (ha : a < 256) (hb : b < 256) : a ^^^ b < 256 :=
  Nat.xor_lt_two_pow (n := 8) ha hb

/-- Byte-boundedness of a buffer. -/
def allBytes (l : List Nat) : Prop := ∀ b ∈ l, b < 256

theorem allBytes_set (l : List Nat) (k v : Nat) (hl : allBytes l) (hv : v < 256) :
    allBytes (l.set k v) := by
  intro b hb
  rcases List.mem_or_eq_of_mem_set hb with h | rfl
  · exact hl b h
  · exact hv

theorem allBytes_listSetSlice (l : List Nat) (a : Nat) (vals : List Nat)
    (hl : allBytes l) (hv : allBytes vals) : allBytes (listSetSlice l a vals) := by
  intro b hb
  rw [listSetSlice] at hb
  simp only [List.mem_append] at hb
  rcases hb with (h | h) | h
  · exact hl b (List.mem_of_mem_take h)
  · exact hv b h
  · exact hl b (List.mem_of_mem_drop h)

/-- The conditional writes keep every byte below 256 when the plan's values
are bytes. -/
theorem applyBinWrites_bounds (data : List Nat) (pages : Pages) (fl : Flags)
    (pl : RepairPlan) (hd : allBytes data) (hu : allBytes pl.uid)
    (hb0 : pl.correctBcc0 < 256) (hb1 : pl.correctBcc1 < 256)
    (hpw : allBytes pl.correctPwd) :
    allBytes (applyBinWrites data pages fl pl) := by
  have hug : ∀ i, pl.uid.getD i 0 < 256 := getD_lt_256 pl.uid hu
  unfold applyBinWrites
  simp only []
  have s0 : allBytes (if fl.fix_uid then
      ((data.set 0 (pl.uid.getD 0 0)).set 1 (pl.uid.getD 1 0)).set 2 (pl.uid.getD 2 0)
    else data) := by
    split
    · exact allBytes_set _ _ _ (allBytes_set _ _ _ (allBytes_set _ _ _ hd (hug 0)) (hug 1)) (hug 2)
    · exact hd
  generalize (if fl.fix_uid then
      ((data.set 0 (pl.uid.getD 0 0)).set 1 (pl.uid.getD 1 0)).set 2 (pl.uid.getD 2 0)
    else data) = A at s0 ⊢
  have s1 : allBytes (if fl.fix_bcc then A.set 3 pl.correctBcc0 else A) := by
    split
    · exact allBytes_set _ _ _ s0 hb0
    · exact s0
  generalize (if fl.fix_bcc then A.set 3 pl.correctBcc0 else A) = B at s1 ⊢
  have s2 : allBytes (if fl.fix_uid then
      (((B.set 4 (pl.uid.getD 3 0)).set 5 (pl.uid.getD 4 0)).set 6
        (pl.uid.getD 5 0)).set 7 (pl.uid.getD 6 0)
    else B) := by
    split
    · exact allBytes_set _ _ _ (allBytes_set _ _ _ (allBytes_set _ _ _
        (allBytes_set _ _ _ s1 (hug 3)) (hug 4)) (hug 5)) (hug 6)
    · exact s1
  generalize (if fl.fix_uid then
      (((B.set 4 (pl.uid.getD 3 0)).set 5 (pl.uid.getD 4 0)).set 6
        (pl.uid.getD 5 0)).set 7 (pl.uid.getD 6 0)
    else B) = C at s2 ⊢
  have s3 : allBytes (if fl.fix_bcc && pagesHas pages 2 then C.set 8 pl.correctBcc1 else C) := by
    split
    · exact allBytes_set _ _ _ s2 hb1
    · exact s2
  generalize (if fl.fix_bcc && pagesHas pages 2 then C.set 8 pl.correctBcc1 else C) = D at s3 ⊢
  have s4 : allBytes (if fl.fix_dlb && pagesHas pages 130 then
      listSetSlice D 520 expected_dlb else D) := by
    split
    · exact allBytes_listSetSlice _ _ _ s3
        (by intro b hb; simp [expected_dlb] at hb; omega)
    · exact s3
  generalize (if fl.fix_dlb && pagesHas pages 130 then
      listSetSlice D 520 expected_dlb else D) = E at s4 ⊢
  have s5 : allBytes (if fl.fix_cfg && pagesHas pages 131 then
      listSetSlice E 524 expected_cfg0 else E) := by
    split
    · exact allBytes_listSetSlice _ _ _ s4
        (by intro b hb; simp [expected_cfg0] at hb; omega)
    · exact s4
  generalize (if fl.fix_cfg && pagesHas pages 131 then
      listSetSlice E 524 expected_cfg0 else E) = F at s5 ⊢
  have s6 : allBytes (if fl.fix_cfg && pagesHas pages 132 then
      listSetSlice F 528 expected_cfg1 else F) := by
    split
    · exact allBytes_listSetSlice _ _ _ s5
        (by intro b hb; simp [expected_cfg1] at hb; omega)
    · exact s5
  generalize (if fl.fix_cfg && pagesHas pages 132 then
      listSetSlice F 528 expected_cfg1 else F) = G at s6 ⊢
  have s7 : allBytes (if fl.fix_password && pagesHas pages 133 then
      listSetSlice G 532 pl.correctPwd else G) := by
    split
    · exact allBytes_listSetSlice _ _ _ s6 hpw
    · exact s6
  generalize (if fl.fix_password && pagesHas pages 133 then
      listSetSlice G 532 pl.correctPwd else G) = H at s7 ⊢
  split
  · exact allBytes_listSetSlice _ _ _ s7
      (by intro b hb; simp [expected_pack] at hb; omega)
  · exact s7

/-- C10: for every binary image of at least 540 bytes (byte-bounded), running the
binary repair with every fix flag enabled (and the resampled byte drawn from
[0,255] excluding 0x88) such that it writes new content yields an image the
comprehensive validator judges `allValid`: SN3 differs from 0x88, BCC0/BCC1
match the values derived from the final UID, page 133 holds the derived
password, page 134 holds 80 80 00 00, and pages 130-132 hold the DLB/CFG0/CFG1
constants. -/
theorem C10_repair_completeness (data : List Nat) (rnd : Nat)
    (hlen : 540 ≤ data.length) (hbytes : ∀ b ∈ data, b < 256)
    (hrnd : rnd < 256) (hr88 : rnd ≠ 0x88)
    (res : BinFixRes) (nd : List Nat)
    (h : fix_bin_file data allFlags rnd = some res) (hnd : res.newData = some nd) :
    checkOfBin nd = some true := by
  have hlit : allBytes [data.getD 0 0, data.getD 1 0, data.getD 2 0, data.getD 4 0,
      data.getD 5 0, data.getD 6 0, data.getD 7 0] := by
    intro b hmem
    simp only [List.mem_cons, List.not_mem_nil, or_false] at hmem
    rcases hmem with rfl | rfl | rfl | rfl | rfl | rfl | rfl
    all_goals exact getD_lt_256 data hbytes _
  have hUmem : allBytes (effectiveBinUid data rnd) := by
    rw [effectiveBinUid, fix_uid_if_sn3_is_88]
    split
    · exact allBytes_set _ _ _ hlit hrnd
    · exact hlit
  have hU3 : (effectiveBinUid data rnd).getD 3 0 ≠ 0x88 := by
    rw [effectiveBinUid, fix_uid_if_sn3_is_88]
    split
    · rw [getD_set, if_pos ⟨rfl, by simp⟩]
      exact hr88
    · rename_i hc
      intro habs
      exact hc ⟨by simp, habs⟩
  have hUg : ∀ i, (effectiveBinUid data rnd).getD i 0 < 256 :=
    getD_lt_256 _ hUmem
  unfold fix_bin_file at h
  rw [extract_pages_from_bin_eq data hlen] at h
  simp only [] at h
  split at h
  · cases h; exact Option.noConfusion hnd
  · split at h
    · cases h; exact Option.noConfusion hnd
    · obtain ⟨ch, is, hpl⟩ := binPlan_eval data rnd hlen hbytes
      rw [hpl] at h
      simp only [] at h
      split at h
      · cases h; exact Option.noConfusion hnd
      · cases h
        simp only [Option.some.injEq] at hnd
        subst hnd
        have hslices := applyBinWrites_slices data
          [(0, bytesToHexChars (pySlice data 0 4)), (1, bytesToHexChars (pySlice data 4 8)),
           (2, bytesToHexChars (pySlice data 8 12)),
           (130, bytesToHexChars (pySlice data 520 524)),
           (131, bytesToHexChars (pySlice data 524 528)),
           (132, bytesToHexChars (pySlice data 528 532)),
           (133, bytesToHexChars (pySlice data 532 536)),
           (134, bytesToHexChars (pySlice data 536 540))]
          ⟨effectiveBinUid data rnd,
            0x88 ^^^ (effectiveBinUid data rnd).getD 0 0 ^^^ (effectiveBinUid data rnd).getD 1 0 ^^^
              (effectiveBinUid data rnd).getD 2 0,
            (effectiveBinUid data rnd).getD 3 0 ^^^ (effectiveBinUid data rnd).getD 4 0 ^^^
              (effectiveBinUid data rnd).getD 5 0 ^^^ (effectiveBinUid data rnd).getD 6 0,
            [(effectiveBinUid data rnd).getD 1 0 ^^^ (effectiveBinUid data rnd).getD 3 0 ^^^ 0xAA,
             (effectiveBinUid data rnd).getD 2 0 ^^^ (effectiveBinUid data rnd).getD 4 0 ^^^ 0x55,
             (effectiveBinUid data rnd).getD 3 0 ^^^ (effectiveBinUid data rnd).getD 5 0 ^^^ 0xAA,
             (effectiveBinUid data rnd).getD 4 0 ^^^ (effectiveBinUid data rnd).getD 6 0 ^^^ 0x55],
            ch, is⟩
          hlen (by rfl) (by rfl) (by rfl) (by rfl) (by rfl) (by rfl) (by rfl)
        have hbounds := applyBinWrites_bounds data
          [(0, bytesToHexChars (pySlice data 0 4)), (1, bytesToHexChars (pySlice data 4 8)),
           (2, bytesToHexChars (pySlice data 8 12)),
           (130, bytesToHexChars (pySlice data 520 524)),
           (131, bytesToHexChars (pySlice data 524 528)),
           (132, bytesToHexChars (pySlice data 528 532)),
           (133, bytesToHexChars (pySlice data 532 536)),
           (134, bytesToHexChars (pySlice data 536 540))]
          allFlags
          ⟨effectiveBinUid data rnd,
            0x88 ^^^ (effectiveBinUid data rnd).getD 0 0 ^^^ (effectiveBinUid data rnd).getD 1 0 ^^^
              (effectiveBinUid data rnd).getD 2 0,
            (effectiveBinUid data rnd).getD 3 0 ^^^ (effectiveBinUid data rnd).getD 4 0 ^^^
              (effectiveBinUid data rnd).getD 5 0 ^^^ (effectiveBinUid data rnd).getD 6 0,
            [(effectiveBinUid data rnd).getD 1 0 ^^^ (effectiveBinUid data rnd).getD 3 0 ^^^ 0xAA,
             (effectiveBinUid data rnd).getD 2 0 ^^^ (effectiveBinUid data rnd).getD 4 0 ^^^ 0x55,
             (effectiveBinUid data rnd).getD 3 0 ^^^ (effectiveBinUid data rnd).getD 5 0 ^^^ 0xAA,
             (effectiveBinUid data rnd).getD 4 0 ^^^ (effectiveBinUid data rnd).getD 6 0 ^^^ 0x55],
            ch, is⟩
          hbytes hUmem
          (xor_lt_256 _ _ (xor_lt_256 _ _ (xor_lt_256 _ _ (by omega) (hUg 0)) (hUg 1)) (hUg 2))
          (xor_lt_256 _ _ (xor_lt_256 _ _ (xor_lt_256 _ _ (hUg 3) (hUg 4)) (hUg 5)) (hUg 6))
          (by
            intro b hmem
            simp only [List.mem_cons, List.not_mem_nil, or_false] at hmem
            rcases hmem with rfl | rfl | rfl | rfl
            · exact xor_lt_256 _ _ (xor_lt_256 _ _ (hUg 1) (hUg 3)) (by omega)
            · exact xor_lt_256 _ _ (xor_lt_256 _ _ (hUg 2) (hUg 4)) (by omega)
            · exact xor_lt_256 _ _ (xor_lt_256 _ _ (hUg 3) (hUg 5)) (by omega)
            · exact xor_lt_256 _ _ (xor_lt_256 _ _ (hUg 4) (hUg 6)) (by omega))
        obtain ⟨hp0, hp1, hp2, hdlb, hcfg0, hcfg1, hpwd, hpk, hndlen⟩ := hslices
        exact checkOfBin_valid _
          ((effectiveBinUid data rnd).getD 0 0) ((effectiveBinUid data rnd).getD 1 0)
          ((effectiveBinUid data rnd).getD 2 0) ((effectiveBinUid data rnd).getD 3 0)
          ((effectiveBinUid data rnd).getD 4 0) ((effectiveBinUid data rnd).getD 5 0)
          ((effectiveBinUid data rnd).getD 6 0)
          (data.getD 9 0) (data.getD 10 0) (data.getD 11 0)
          (by rw [hndlen]; exact hlen) hbounds hU3 hp0 hp1 hp2 hdlb hcfg0 hcfg1 hpwd hpk

def c10bin : List Nat :=
  [0x04, 0xAB, 0x73, 0x88, 0x88, 0xB8, 0xB6, 0x0F, 0x55, 0, 0, 0] ++
  List.replicate 508 0 ++
  [0x01, 0x00, 0x0F, 0xBF] ++ [0x00, 0x00, 0x00, 0x04] ++ [0x5F, 0x00, 0x00, 0x00] ++
  [0x11, 0x22, 0x33, 0x44] ++ [0x80, 0x80, 0x00, 0x00]

/-- Witness for C10 on a concrete broken dump (SN3 = 0x88, wrong BCCs and
password): the repaired buffer passes the comprehensive validator. -/
theorem C10_repair_completeness_witness :
    checkOfBin ((((fix_bin_file c10bin allFlags 0x42).getD defaultBinFixRes).newData).getD [])
      = some true :=
  C10_repair_completeness c10bin 0x42 (by decide) (by decide) (by decide) (by decide)
    ((fix_bin_file c10bin allFlags 0x42).getD defaultBinFixRes)
    ((((fix_bin_file c10bin allFlags 0x42).getD defaultBinFixRes).newData).getD [])
    (by decide) (by decide)
